import Mathlib

/-!
Verification of the demo orchestrator (`orchestrator/orchestrator_service.py`)
of the FPGA design-agent repository.  The orchestrator's per-node state
machine, retry/attempt bookkeeping, dependency cascade and result-dispatch
loop are shallowly embedded below; machine state is represented with
association lists so that concrete executions are decidable.
-/

namespace Orch

/-- Node lifecycle states.  Modelled from the spec: `orchestrator/state_machine.py`
is absent from `src/`; §4.2 of the spec lists exactly these states, and §3 says a
`Node` is mutated only via `transition`. -/
inductive NodeState where
  | PENDING | IMPLEMENTING | LINTING | TESTBENCHING | TB_LINTING
  | SIMULATING | ACCEPTING | DISTILLING | REFLECTING | DEBUGGING
  | DONE | FAILED
deriving DecidableEq, Repr

/-- Result status.  Modelled from the spec: `core/schemas/contracts.py` is absent
from `src/`; §3 gives `status : SUCCESS | FAILURE`. -/
inductive TaskStatus where
  | SUCCESS | FAILURE
deriving DecidableEq, Repr

/-- Routing class of a task.  Modelled from the spec (§3, `entity_type`). -/
inductive EntityType where
  | REASONING | LIGHT_DETERMINISTIC | HEAVY_DETERMINISTIC
deriving DecidableEq, Repr

/-- The specific agent/worker kind of a task (spec §3 `task_type`; the source
uses the `AgentType` and `WorkerType` enum members listed here). -/
inductive TaskKind where
  | IMPLEMENTATION | TESTBENCH | DEBUG | REFLECTION
  | LINTER | TESTBENCH_LINTER | SIMULATOR | ACCEPTANCE | DISTILLATION
deriving DecidableEq, Repr

/-- A `ResultMessage` as consumed by the orchestrator loop.  `task_id`s are
modelled as the `Nat` index assigned at publish time (the source draws fresh
UUIDs; freshness is all the loop relies on).  `reflection_insights` is a
structured payload in the source; only its presence matters here, so it is
kept as its JSON dump. -/
structure ResultMsg where
  task_id : Nat
  status : TaskStatus
  artifacts_path : Option String
  log_output : String
  reflection_insights : Option String
  reflections : Option String
deriving DecidableEq, Repr

/-- One published task, as recorded by `DemoOrchestrator._publish_task`:
the fresh `task_id`, the owning node, the routing entity, the task type, the
`attempt` context key and the `debug_reason` context key when supplied. -/
structure PubRec where
  task_id : Nat
  node : String
  entity : EntityType
  ttype : TaskKind
  attempt : Option Nat
  debug_reason : Option String
deriving DecidableEq, Repr

/-- The snapshot stored in `pending_debug[node]` when a DEBUGGING task is
issued (source lines 301-306, 347-352, 488-493). -/
structure DebugMeta where
  rtl_sha : String
  tb_sha : String
  from_attempt : Nat
  reason : String
deriving DecidableEq, Repr

/- ----- association-list helpers (Python dict/set operations) ----- -/

/-- Lookup in an association list (first binding wins, like a Python dict). -/
def aGet {α : Type} : List (String × α) → String → Option α
  | [], _ => none
  | (k, v) :: t, q => if q = k then some v else aGet t q

/-- `dict.get(k, d)`: lookup with a default. -/
def aGetD {α : Type} (l : List (String × α)) (k : String) (d : α) : α :=
  (aGet l k).getD d

/-- `dict[k] = v`: replace the binding in place if present, else append
(Python dicts keep insertion order on update; states built from the empty
dict bind each key at most once). -/
def aSet {α : Type} : List (String × α) → String → α → List (String × α)
  | [], k, v => [(k, v)]
  | (k1, v1) :: t, k, v =>
    if k1 = k then (k, v) :: t else (k1, v1) :: aSet t k v

/-- `dict.pop(k, None)`: remove every binding of `k`. -/
def aDel {α : Type} (l : List (String × α)) (k : String) : List (String × α) :=
  l.filter (fun p => p.1 != k)

/-- `set.discard(k)` on a set modelled as a list. -/
def sDel (l : List String) (k : String) : List String :=
  l.filter (fun x => x != k)

/-- `set.add(k)` on a set modelled as a list (no duplicate insertion). -/
def sAdd (l : List String) (k : String) : List String :=
  if k ∈ l then l else l ++ [k]

/- ----- stage-key encoding (source `_stage_key` / `_parse_stage_key`) ----- -/

/-- Left-to-right search for the first occurrence of `pat` in `s`, returning
the text before it and the text after it (Python `str.partition` restricted
to the found case). -/
def subSplit : List Char → List Char → Option (List Char × List Char)
  | s, pat =>
    if pat.isPrefixOf s then some ([], s.drop pat.length)
    else
      match s with
      | [] => none
      | c :: rest => (subSplit rest pat).map (fun q => (c :: q.1, q.2))

/-- Python `pat in s` (substring containment) for non-empty `pat`. -/
def containsSub (s pat : List Char) : Bool :=
  (subSplit s pat).isSome

/-- ASCII decimal digit test. -/
def isDigitCh (c : Char) : Bool :=
  48 ≤ c.toNat && c.toNat ≤ 57

/-- Python `str.isdigit` over the characters this system produces
(non-empty, all decimal digits). -/
def pyIsDigit (l : List Char) : Bool :=
  !l.isEmpty && l.all isDigitCh

/-- Character of a single decimal digit. -/
def digitCh (d : Nat) : Char := Char.ofNat (48 + d)

/-- Decimal digit expansion, most significant first; the first argument is
recursion fuel (any bound above the argument works). -/
def natToCharsAux : Nat → Nat → List Char
  | 0, _ => []
  | fuel + 1, n =>
    if n = 0 then [] else natToCharsAux fuel (n / 10) ++ [digitCh (n % 10)]

/-- Python `str(n)` for a natural number. -/
def natToChars (n : Nat) : List Char :=
  if n = 0 then [digitCh 0] else natToCharsAux (n + 1) n

/-- Python `int(s)` on a digit string. -/
def charsToNat (l : List Char) : Nat :=
  l.foldl (fun a c => 10 * a + (c.toNat - 48)) 0

/-- The characters of the literal `"_attempt"`. -/
def attemptPat : List Char := "_attempt".data

/-- Source `_stage_key(kind, attempt)` (orchestrator_service.py lines 148-151). -/
def stage_key (kind : String) (attempt : Option Nat) : String :=
  match attempt with
  | none => kind
  | some a => kind ++ "_attempt" ++ String.mk (natToChars a)

/-- Source `_parse_stage_key(stage_key)` (orchestrator_service.py lines
153-159): if `"_attempt"` does not occur, the whole key is the kind;
otherwise partition at the first occurrence and accept the suffix as the
attempt only when it is all digits. -/
def parse_stage_key (sk : String) : String × Option Nat :=
  match subSplit sk.data attemptPat with
  | none => (sk, none)
  | some (pre, suf) =>
    if pyIsDigit suf then (String.mk pre, some (charsToNat suf))
    else (String.mk pre, none)

/- ----- orchestrator state ----- -/

/-- Static configuration read once at startup: the DAG's node ids (in file
order), each node's dependency list, each node's `verification_scope`
(default `"full"`), and `DEBUG_MAX_RETRIES` (default 2). -/
structure Cfg where
  nodeIds : List String
  deps : List (String × List String)
  scopes : List (String × String)
  maxDebugRetries : Nat
deriving DecidableEq, Repr

/-- The file system as read at one dispatch: per node the current content
hash of its RTL file and of its testbench file (`_hash_file` returns `""`
for a missing file, hence the `("", "")` default).  Workers rewrite these
files between dispatches, so each processed result carries its own `FS`. -/
def FS : Type := List (String × (String × String))

/-- `_hash_file(ctx["rtl_path"])` at dispatch time. -/
def fsRtl (fs : FS) (node : String) : String := (aGetD fs node ("", "")).1

/-- `_hash_file(tb_path)` at dispatch time. -/
def fsTb (fs : FS) (node : String) : String := (aGetD fs node ("", "")).2

/-- The orchestrator's mutable state: the node registry, the outstanding-task
map `tasks`, the three scheduling sets, the attempt and retry ledgers, the
debug snapshots, everything published so far, and the Task-Memory records
written by the loop. -/
structure OState where
  nodeStates : List (String × NodeState)
  tasks : List (String × List (String × Nat))
  pending : List String
  activeN : List String
  doneN : List String
  attempt_by_node : List (String × Nat)
  debug_attempts_by_node : List (String × List (String × Nat))
  tb_generated_by_node : List (String × Bool)
  post_lint_next_kind : List (String × String)
  pending_debug : List (String × DebugMeta)
  published : List PubRec
  nextTaskId : Nat
  memLogs : List (String × String)
  memArtifacts : List (String × String)
  memSnapshots : List String
  transitions : List (String × NodeState)
deriving DecidableEq, Repr

/-- Task-memory key for `(node, stage)` records, `node/stage` on disk. -/
def memKey (node stage : String) : String := node ++ "/" ++ stage

/-- `_get_debug_attempts(node_id, reason)` (source lines 166-167). -/
def getDebugAttempts (s : OState) (node reason : String) : Nat :=
  aGetD (aGetD s.debug_attempts_by_node node []) reason 0

/-- `_inc_debug_attempts(node_id, reason)` (source lines 169-172). -/
def incDebugAttempts (s : OState) (node reason : String) : OState :=
  let m := aSet (aGetD s.debug_attempts_by_node node []) reason
    (getDebugAttempts s node reason + 1)
  { s with debug_attempts_by_node := aSet s.debug_attempts_by_node node m }

/-- `_reset_debug_attempts(node_id, reason)` (source lines 174-176). -/
def resetDebugAttempts (s : OState) (node reason : String) : OState :=
  let m := aSet (aGetD s.debug_attempts_by_node node []) reason 0
  { s with debug_attempts_by_node := aSet s.debug_attempts_by_node node m }

/-- `DemoOrchestrator._advance` as used inside the dispatch loop: mutate the
node's state via `Node.transition` and emit the observable notification
(`emit_runtime_event` swallows sink errors; the demo loop is driven with a
callback that does not raise — the raising case is modelled separately by
`advanceCb`). -/
def applyAdvance (s : OState) (node : String) (st : NodeState) : OState :=
  { s with nodeStates := aSet s.nodeStates node st,
           transitions := s.transitions ++ [(node, st)] }

/-- `DemoOrchestrator._publish_task`: build the message with a fresh id,
publish it, and return the id (source lines 75-102). -/
def publishTask (s : OState) (node : String) (entity : EntityType)
    (ttype : TaskKind) (attempt : Option Nat) (dreason : Option String) :
    OState × Nat :=
  let tid := s.nextTaskId
  ({ s with
      published := s.published ++
        [{ task_id := tid, node := node, entity := entity, ttype := ttype,
           attempt := attempt, debug_reason := dreason }],
      nextTaskId := tid + 1 }, tid)

/-- Record an outstanding task under its stage key:
`tasks[target_node][stage_key] = task`. -/
def setTask (s : OState) (node sk : String) (tid : Nat) : OState :=
  { s with tasks := aSet s.tasks node (aSet (aGetD s.tasks node []) sk tid) }

/-- `start_node` (source lines 210-218): initialize the ledgers, advance to
IMPLEMENTING, publish the IMPLEMENTATION task, replace the node's task
bundle with `{"impl": task}`, move the node from pending to active. -/
def startNode (_cfg : Cfg) (s : OState) (node : String) : OState :=
  let s1 := { s with
      attempt_by_node := aSet s.attempt_by_node node 1,
      debug_attempts_by_node := aSet s.debug_attempts_by_node node [],
      tb_generated_by_node := aSet s.tb_generated_by_node node false }
  let s2 := applyAdvance s1 node NodeState.IMPLEMENTING
  let (s3, tid) := publishTask s2 node EntityType.REASONING TaskKind.IMPLEMENTATION none none
  { s3 with tasks := aSet s3.tasks node [("impl", tid)],
            pending := sDel s3.pending node,
            activeN := sAdd s3.activeN node }

/-- `start_ready_nodes` (source lines 220-223): start every pending node
whose dependency set is contained in `done_nodes`. -/
def startReadyNodes (cfg : Cfg) (s : OState) : OState :=
  let ready := s.pending.filter (fun n => (aGetD cfg.deps n []).all (fun d => d ∈ s.doneN))
  ready.foldl (startNode cfg) s

/-- `fail_dependents` (source lines 225-230): every pending node that lists
the failed node as a dependency is advanced to FAILED, removed from pending
and added to `done_nodes`.  Note: not recursive, and it does not publish. -/
def failDependents (cfg : Cfg) (s : OState) (failed : String) : OState :=
  let blocked := s.pending.filter (fun n => failed ∈ aGetD cfg.deps n [])
  blocked.foldl
    (fun acc n =>
      let a1 := applyAdvance acc n NodeState.FAILED
      { a1 with pending := sDel a1.pending n, doneN := sAdd a1.doneN n })
    s

/-- `_finish_failed` (source lines 232-237). -/
def finishFailed (cfg : Cfg) (s : OState) (node : String) : OState :=
  let s1 := applyAdvance s node NodeState.FAILED
  let s2 := { s1 with activeN := sDel s1.activeN node, doneN := sAdd s1.doneN node }
  startReadyNodes cfg (failDependents cfg s2 node)

/-- `_finish_done` (source lines 239-243). -/
def finishDone (cfg : Cfg) (s : OState) (node : String) : OState :=
  let s1 := applyAdvance s node NodeState.DONE
  let s2 := { s1 with activeN := sDel s1.activeN node, doneN := sAdd s1.doneN node }
  startReadyNodes cfg s2

/-- Python `stage_attempt or attempt_by_node.get(target_node, 1)`:
`or` falls through on `None` and on the falsy `0`. -/
def pyOrAttempt (sa : Option Nat) (fb : Nat) : Nat :=
  match sa with
  | none => fb
  | some a => if a = 0 then fb else a

/-- The debug-dispatch pattern shared by the `lint`-failure, `tb_lint`-failure
and `reflect`-success branches (source lines 298-318, 344-364, 485-505):
snapshot the current RTL/TB hashes into `pending_debug`, increment the
retry ledger, advance to DEBUGGING and publish the DEBUG task. -/
def startDebug (_cfg : Cfg) (fs : FS) (s : OState) (node reason : String)
    (attempt : Nat) : OState :=
  let meta : DebugMeta :=
    { rtl_sha := fsRtl fs node, tb_sha := fsTb fs node,
      from_attempt := attempt, reason := reason }
  let s1 := { s with pending_debug := aSet s.pending_debug node meta }
  let s2 := incDebugAttempts s1 node reason
  let s3 := applyAdvance s2 node NodeState.DEBUGGING
  let (s4, tid) := publishTask s3 node EntityType.REASONING TaskKind.DEBUG
      (some attempt) (some reason)
  setTask s4 node (stage_key "debug" (some attempt)) tid

/-- The advance / publish / remember-outstanding-task pattern every
non-terminal dispatch branch ends with: `self._advance(node, st)` followed by
`self._publish_task(...)` and `tasks[node][key] = task`. -/
def advPub (s : OState) (node : String) (st : NodeState) (ent : EntityType)
    (tt : TaskKind) (att : Option Nat) (dr : Option String) (key : String) : OState :=
  let s1 := applyAdvance s node st
  let (s2, tid) := publishTask s1 node ent tt att dr
  setTask s2 node key tid

/-- The `result.status is not TaskStatus.SUCCESS` block of the dispatch loop
(source lines 290-368): `lint` and `tb_lint` failures enter the bounded
debug path, a `sim` failure with a stage attempt enters DISTILLING, and
every other failed stage finalizes the node FAILED. -/
def handleFailure (cfg : Cfg) (fs : FS) (s : OState) (node kind : String)
    (sa : Option Nat) : OState :=
  if kind = "lint" then
    let reason := "rtl_lint"
    let attempt := pyOrAttempt sa (aGetD s.attempt_by_node node 1)
    if getDebugAttempts s node reason ≥ cfg.maxDebugRetries then
      finishFailed cfg s node
    else
      startDebug cfg fs s node reason attempt
  else if kind = "sim" then
    match sa with
    | none => finishFailed cfg s node
    | some a =>
      advPub s node NodeState.DISTILLING EntityType.LIGHT_DETERMINISTIC
        TaskKind.DISTILLATION (some a) none (stage_key "distill" (some a))
  else if kind = "tb_lint" then
    let reason := "tb_lint"
    let attempt := pyOrAttempt sa (aGetD s.attempt_by_node node 1)
    if getDebugAttempts s node reason ≥ cfg.maxDebugRetries then
      finishFailed cfg s node
    else
      startDebug cfg fs s node reason attempt
  else
    finishFailed cfg s node

/-- The SUCCESS block of the dispatch loop (source lines 370-547). -/
def handleSuccess (cfg : Cfg) (fs : FS) (s : OState) (node kind : String)
    (sa : Option Nat) : OState :=
  if kind = "impl" then
    let attempt := aGetD s.attempt_by_node node 1
    advPub s node NodeState.LINTING EntityType.LIGHT_DETERMINISTIC
      TaskKind.LINTER (some attempt) none (stage_key "lint" (some attempt))
  else if kind = "lint" then
    let s1 := resetDebugAttempts s node "rtl_lint"
    if aGetD cfg.scopes node "full" ≠ "full" then
      finishDone cfg s1 node
    else if ¬ aGetD s1.tb_generated_by_node node false then
      advPub s1 node NodeState.TESTBENCHING EntityType.REASONING
        TaskKind.TESTBENCH none none "tb"
    else
      let nextKind := aGetD s1.post_lint_next_kind node "sim"
      let s2 := { s1 with post_lint_next_kind := aDel s1.post_lint_next_kind node }
      let attempt := pyOrAttempt sa (aGetD s2.attempt_by_node node 1)
      if nextKind = "tb_lint" then
        advPub s2 node NodeState.TB_LINTING EntityType.LIGHT_DETERMINISTIC
          TaskKind.TESTBENCH_LINTER (some attempt) none (stage_key "tb_lint" (some attempt))
      else
        advPub s2 node NodeState.SIMULATING EntityType.HEAVY_DETERMINISTIC
          TaskKind.SIMULATOR (some attempt) none (stage_key "sim" (some attempt))
  else if kind = "tb" then
    let s1 := { s with tb_generated_by_node := aSet s.tb_generated_by_node node true }
    let attempt := aGetD s1.attempt_by_node node 1
    advPub s1 node NodeState.TB_LINTING EntityType.LIGHT_DETERMINISTIC
      TaskKind.TESTBENCH_LINTER (some attempt) none (stage_key "tb_lint" (some attempt))
  else if kind = "tb_lint" then
    let s1 := resetDebugAttempts s node "tb_lint"
    let attempt := pyOrAttempt sa (aGetD s1.attempt_by_node node 1)
    advPub s1 node NodeState.SIMULATING EntityType.HEAVY_DETERMINISTIC
      TaskKind.SIMULATOR (some attempt) none (stage_key "sim" (some attempt))
  else if kind = "sim" then
    let s1 := resetDebugAttempts s node "sim"
    let attempt := pyOrAttempt sa (aGetD s1.attempt_by_node node 1)
    advPub s1 node NodeState.ACCEPTING EntityType.LIGHT_DETERMINISTIC
      TaskKind.ACCEPTANCE (some attempt) none (stage_key "acceptance" (some attempt))
  else if kind = "acceptance" then
    finishDone cfg s node
  else if kind = "distill" then
    match sa with
    | none => finishFailed cfg s node
    | some a =>
      advPub s node NodeState.REFLECTING EntityType.REASONING
        TaskKind.REFLECTION (some a) none (stage_key "reflect" (some a))
  else if kind = "reflect" then
    match sa with
    | none => finishFailed cfg s node
    | some a =>
      let reason := "sim"
      if getDebugAttempts s node reason ≥ cfg.maxDebugRetries then
        finishFailed cfg s node
      else
        startDebug cfg fs s node reason a
  else if kind = "debug" then
    match aGet s.pending_debug node with
    | none => finishFailed cfg s node
    | some meta =>
      let s1 := { s with pending_debug := aDel s.pending_debug node }
      let rtlChanged := meta.rtl_sha ≠ fsRtl fs node
      let tbChanged := meta.tb_sha ≠ fsTb fs node
      let nextAttempt := meta.from_attempt + 1
      let s2 := { s1 with attempt_by_node := aSet s1.attempt_by_node node nextAttempt }
      if ¬ rtlChanged ∧ ¬ tbChanged then
        finishFailed cfg s2 node
      else if rtlChanged then
        let nk := if tbChanged then "tb_lint" else "sim"
        let s3 := applyAdvance s2 node NodeState.LINTING
        let s4 := { s3 with post_lint_next_kind := aSet s3.post_lint_next_kind node nk }
        let (s5, tid) := publishTask s4 node EntityType.LIGHT_DETERMINISTIC
            TaskKind.LINTER (some nextAttempt) none
        setTask s5 node (stage_key "lint" (some nextAttempt)) tid
      else
        advPub s2 node NodeState.TB_LINTING EntityType.LIGHT_DETERMINISTIC
          TaskKind.TESTBENCH_LINTER (some nextAttempt) none
          (stage_key "tb_lint" (some nextAttempt))
  else
    s

/-- An exception escaping the per-result processing.  `TaskMemory`
(task_memory.py lines 11-27) defines only `record_log` and
`record_artifact_path`; the loop's calls to `task_memory.record_json`
(source lines 275, 282) therefore raise `AttributeError`. -/
inductive PyErr where
  | attributeError
deriving DecidableEq, Repr

/-- Resolve a `task_id` to `(node, stage_key)` by scanning the outstanding-task
map in insertion order, exactly like the nested loop of source lines 257-266. -/
def findTask : List (String × List (String × Nat)) → Nat → Option (String × String)
  | [], _ => none
  | (n, bundle) :: rest, tid =>
    match bundle.find? (fun p => p.2 == tid) with
    | some (k, _) => some (n, k)
    | none => findTask rest tid

/-- `task_memory.record_log` as invoked at source line 271. -/
def recordLogMem (s : OState) (node stage log : String) : OState :=
  { s with memLogs := aSet s.memLogs (memKey node stage) log }

/-- `if result.artifacts_path: record_artifact_path(...)` (source lines
272-273; an empty path is falsy and skipped). -/
def recordArtifactMem (s : OState) (node stage : String) (ap : Option String) : OState :=
  match ap with
  | some p =>
    if p = "" then s
    else { s with memArtifacts := aSet s.memArtifacts (memKey node stage) p }
  | none => s

/-- `_snapshot_failure_sources` on a failed stage (source lines 178-195,
284-285): copies the current sources next to the stage's task-memory
records for the four debuggable kinds; its internal try/except swallows
every error. -/
def recordSnapshotMem (s : OState) (node stage kind : String) (st : TaskStatus) : OState :=
  if st = TaskStatus.FAILURE ∧
      (kind = "lint" ∨ kind = "tb_lint" ∨ kind = "sim" ∨ kind = "debug") then
    { s with memSnapshots := s.memSnapshots ++ [memKey node stage] }
  else s

/-- Python truthiness of an optional string (`None` and `""` are falsy). -/
def pyTruthyStr : Option String → Bool
  | none => false
  | some s => s ≠ ""

/-- The whole record-to-Task-Memory phase of one dispatch (source lines
271-286), as a function of the resolved `(node, stage)`. -/
def recorded (s : OState) (node stage : String) (r : ResultMsg) : OState :=
  recordSnapshotMem
    (recordArtifactMem (recordLogMem s node stage r.log_output) node stage r.artifacts_path)
    node stage (parse_stage_key stage).1 r.status

/-- One iteration of the dispatch loop on a fetched result (source lines
256-547): resolve the task id (unmatched results are dropped), persist the
result to Task Memory, snapshot failure sources on a failed stage, then
dispatch on (status, kind).  The second component is the exception escaping
the iteration, if any: the loop body has no try/except of its own, so the
`AttributeError` from the missing `TaskMemory.record_json` propagates. -/
def processResult (cfg : Cfg) (fs : FS) (s : OState) (r : ResultMsg) :
    OState × Option PyErr :=
  match findTask s.tasks r.task_id with
  | none => (s, none)
  | some (node, stage) =>
    let ks := parse_stage_key stage
    let kind := ks.1
    let sa := ks.2
    let s1 := recordLogMem s node stage r.log_output
    let s2 := recordArtifactMem s1 node stage r.artifacts_path
    if r.reflection_insights.isSome then (s2, some PyErr.attributeError)
    else if pyTruthyStr r.reflections then (s2, some PyErr.attributeError)
    else
      let s3 := recordSnapshotMem s2 node stage kind r.status
      if r.status = TaskStatus.SUCCESS then
        (handleSuccess cfg fs s3 node kind sa, none)
      else
        (handleFailure cfg fs s3 node kind sa, none)

/-- The state reached by one dispatch iteration (the Python object state is
mutated in place, so it is observable even when the iteration raised). -/
def step (cfg : Cfg) (fs : FS) (s : OState) (r : ResultMsg) : OState :=
  (processResult cfg fs s r).1

/-- The control loop of `DemoOrchestrator.run` over a finite delivery
schedule: each delivered result is processed against the file system as it
stands at that dispatch; an exception escaping one iteration terminates the
loop (there is no try/except around the body). -/
def runLoop (cfg : Cfg) : OState → List (FS × ResultMsg) → OState × Option PyErr
  | s, [] => (s, none)
  | s, (fs, r) :: rest =>
    match processResult cfg fs s r with
    | (s', none) => runLoop cfg s' rest
    | (s', some e) => (s', some e)

/-- The state at entry of the control loop (source lines 120-245): every DAG
node PENDING and pending, empty ledgers, then `start_ready_nodes()`. -/
def initState (cfg : Cfg) : OState :=
  let s0 : OState :=
    { nodeStates := cfg.nodeIds.map (fun n => (n, NodeState.PENDING)),
      tasks := [], pending := cfg.nodeIds, activeN := [], doneN := [],
      attempt_by_node := [], debug_attempts_by_node := [],
      tb_generated_by_node := [], post_lint_next_kind := [],
      pending_debug := [], published := [], nextTaskId := 0,
      memLogs := [], memArtifacts := [], memSnapshots := [], transitions := [] }
  startReadyNodes cfg s0

/-- `DemoOrchestrator._advance` with the optional state callback made
explicit (source lines 104-110): `Node.transition` updates the node's state
first, then `emit_runtime_event` (which swallows sink errors), then — with
no surrounding try/except — the callback is invoked when present, so an
exception it raises escapes `_advance` after the state was already updated. -/
def advanceCb (cb : Option (String → NodeState → Except String Unit))
    (ns : List (String × NodeState)) (node : String) (st : NodeState) :
    List (String × NodeState) × Option String :=
  let ns' := aSet ns node st
  match cb with
  | none => (ns', none)
  | some f =>
    match f node st with
    | Except.ok _ => (ns', none)
    | Except.error e => (ns', some e)

/-- Tasks published by a dispatch that started from state `s` and reached
state `s'` (`_publish_task` only ever appends). -/
def addedPubs (s s' : OState) : List PubRec :=
  s'.published.drop s.published.length

/-- `∀ (node, reason)`, the retry ledger is within the configured budget. -/
def DebugLe (cfg : Cfg) (s : OState) : Prop :=
  ∀ n r, getDebugAttempts s n r ≤ cfg.maxDebugRetries

/- ----- concrete fixtures used by witnesses and counterexamples ----- -/

/-- A one-node DAG with full verification scope. -/
def exCfgA : Cfg :=
  { nodeIds := ["A"], deps := [("A", [])], scopes := [("A", "full")],
    maxDebugRetries := 2 }

/-- A three-node chain `A ← B ← C`. -/
def exCfgABC : Cfg :=
  { nodeIds := ["A", "B", "C"], deps := [("A", []), ("B", ["A"]), ("C", ["B"])],
    scopes := [], maxDebugRetries := 2 }

/-- A one-node DAG whose node has a non-`"full"` verification scope. -/
def exCfgSub : Cfg :=
  { nodeIds := ["A"], deps := [("A", [])], scopes := [("A", "sub")],
    maxDebugRetries := 2 }

/-- File contents before any debug round. -/
def exFs0 : FS := [("A", ("r0", "t0"))]

/-- File contents after a debug round that rewrote only the testbench. -/
def exFsTb : FS := [("A", ("r0", "t1"))]

/-- File contents after a debug round that rewrote only the RTL. -/
def exFsRtl : FS := [("A", ("r1", "t0"))]

/-- The per-dependent action inside `fail_dependents`. -/
def failOne (acc : OState) (n : String) : OState :=
  let a1 := applyAdvance acc n NodeState.FAILED
  { a1 with pending := sDel a1.pending n, doneN := sAdd a1.doneN n }

/-- The state reached after the first 0 dispatches of the C9 scenario trace. -/
def c9s0 : OState :=
  { nodeStates := [("A", NodeState.IMPLEMENTING)],
    tasks := [("A", [("impl", 0)])],
    pending := [],
    activeN := ["A"],
    doneN := [],
    attempt_by_node := [("A", 1)],
    debug_attempts_by_node := [("A", [])],
    tb_generated_by_node := [("A", false)],
    post_lint_next_kind := [],
    pending_debug := [],
    published := [{ task_id := 0,
                    node := "A",
                    entity := EntityType.REASONING,
                    ttype := TaskKind.IMPLEMENTATION,
                    attempt := none,
                    debug_reason := none }],
    nextTaskId := 1,
    memLogs := [],
    memArtifacts := [],
    memSnapshots := [],
    transitions := [("A", NodeState.IMPLEMENTING)] }

/-- The state reached after the first 1 dispatches of the C9 scenario trace. -/
def c9s1 : OState :=
  { nodeStates := [("A", NodeState.LINTING)],
    tasks := [("A", [("impl", 0), ("lint_attempt1", 1)])],
    pending := [],
    activeN := ["A"],
    doneN := [],
    attempt_by_node := [("A", 1)],
    debug_attempts_by_node := [("A", [])],
    tb_generated_by_node := [("A", false)],
    post_lint_next_kind := [],
    pending_debug := [],
    published := [{ task_id := 0,
                    node := "A",
                    entity := EntityType.REASONING,
                    ttype := TaskKind.IMPLEMENTATION,
                    attempt := none,
                    debug_reason := none },
                  { task_id := 1,
                    node := "A",
                    entity := EntityType.LIGHT_DETERMINISTIC,
                    ttype := TaskKind.LINTER,
                    attempt := some 1,
                    debug_reason := none }],
    nextTaskId := 2,
    memLogs := [("A/impl", "log")],
    memArtifacts := [],
    memSnapshots := [],
    transitions := [("A", NodeState.IMPLEMENTING), ("A", NodeState.LINTING)] }

/-- The state reached after the first 2 dispatches of the C9 scenario trace. -/
def c9s2 : OState :=
  { nodeStates := [("A", NodeState.TESTBENCHING)],
    tasks := [("A", [("impl", 0), ("lint_attempt1", 1), ("tb", 2)])],
    pending := [],
    activeN := ["A"],
    doneN := [],
    attempt_by_node := [("A", 1)],
    debug_attempts_by_node := [("A", [("rtl_lint", 0)])],
    tb_generated_by_node := [("A", false)],
    post_lint_next_kind := [],
    pending_debug := [],
    published := [{ task_id := 0,
                    node := "A",
                    entity := EntityType.REASONING,
                    ttype := TaskKind.IMPLEMENTATION,
                    attempt := none,
                    debug_reason := none },
                  { task_id := 1,
                    node := "A",
                    entity := EntityType.LIGHT_DETERMINISTIC,
                    ttype := TaskKind.LINTER,
                    attempt := some 1,
                    debug_reason := none },
                  { task_id := 2,
                    node := "A",
                    entity := EntityType.REASONING,
                    ttype := TaskKind.TESTBENCH,
                    attempt := none,
                    debug_reason := none }],
    nextTaskId := 3,
    memLogs := [("A/impl", "log"), ("A/lint_attempt1", "log")],
    memArtifacts := [],
    memSnapshots := [],
    transitions := [("A", NodeState.IMPLEMENTING),
                    ("A", NodeState.LINTING),
                    ("A", NodeState.TESTBENCHING)] }

/-- The state reached after the first 3 dispatches of the C9 scenario trace. -/
def c9s3 : OState :=
  { nodeStates := [("A", NodeState.TB_LINTING)],
    tasks := [("A", [("impl", 0), ("lint_attempt1", 1), ("tb", 2), ("tb_lint_attempt1", 3)])],
    pending := [],
    activeN := ["A"],
    doneN := [],
    attempt_by_node := [("A", 1)],
    debug_attempts_by_node := [("A", [("rtl_lint", 0)])],
    tb_generated_by_node := [("A", true)],
    post_lint_next_kind := [],
    pending_debug := [],
    published := [{ task_id := 0,
                    node := "A",
                    entity := EntityType.REASONING,
                    ttype := TaskKind.IMPLEMENTATION,
                    attempt := none,
                    debug_reason := none },
                  { task_id := 1,
                    node := "A",
                    entity := EntityType.LIGHT_DETERMINISTIC,
                    ttype := TaskKind.LINTER,
                    attempt := some 1,
                    debug_reason := none },
                  { task_id := 2,
                    node := "A",
                    entity := EntityType.REASONING,
                    ttype := TaskKind.TESTBENCH,
                    attempt := none,
                    debug_reason := none },
                  { task_id := 3,
                    node := "A",
                    entity := EntityType.LIGHT_DETERMINISTIC,
                    ttype := TaskKind.TESTBENCH_LINTER,
                    attempt := some 1,
                    debug_reason := none }],
    nextTaskId := 4,
    memLogs := [("A/impl", "log"), ("A/lint_attempt1", "log"), ("A/tb", "log")],
    memArtifacts := [],
    memSnapshots := [],
    transitions := [("A", NodeState.IMPLEMENTING),
                    ("A", NodeState.LINTING),
                    ("A", NodeState.TESTBENCHING),
                    ("A", NodeState.TB_LINTING)] }

/-- The state reached after the first 4 dispatches of the C9 scenario trace. -/
def c9s4 : OState :=
  { nodeStates := [("A", NodeState.SIMULATING)],
    tasks := [("A", [("impl", 0), ("lint_attempt1", 1), ("tb", 2), ("tb_lint_attempt1", 3), ("sim_attempt1", 4)])],
    pending := [],
    activeN := ["A"],
    doneN := [],
    attempt_by_node := [("A", 1)],
    debug_attempts_by_node := [("A", [("rtl_lint", 0), ("tb_lint", 0)])],
    tb_generated_by_node := [("A", true)],
    post_lint_next_kind := [],
    pending_debug := [],
    published := [{ task_id := 0,
                    node := "A",
                    entity := EntityType.REASONING,
                    ttype := TaskKind.IMPLEMENTATION,
                    attempt := none,
                    debug_reason := none },
                  { task_id := 1,
                    node := "A",
                    entity := EntityType.LIGHT_DETERMINISTIC,
                    ttype := TaskKind.LINTER,
                    attempt := some 1,
                    debug_reason := none },
                  { task_id := 2,
                    node := "A",
                    entity := EntityType.REASONING,
                    ttype := TaskKind.TESTBENCH,
                    attempt := none,
                    debug_reason := none },
                  { task_id := 3,
                    node := "A",
                    entity := EntityType.LIGHT_DETERMINISTIC,
                    ttype := TaskKind.TESTBENCH_LINTER,
                    attempt := some 1,
                    debug_reason := none },
                  { task_id := 4,
                    node := "A",
                    entity := EntityType.HEAVY_DETERMINISTIC,
                    ttype := TaskKind.SIMULATOR,
                    attempt := some 1,
                    debug_reason := none }],
    nextTaskId := 5,
    memLogs := [("A/impl", "log"), ("A/lint_attempt1", "log"), ("A/tb", "log"), ("A/tb_lint_attempt1", "log")],
    memArtifacts := [],
    memSnapshots := [],
    transitions := [("A", NodeState.IMPLEMENTING),
                    ("A", NodeState.LINTING),
                    ("A", NodeState.TESTBENCHING),
                    ("A", NodeState.TB_LINTING),
                    ("A", NodeState.SIMULATING)] }

/-- The state reached after the first 5 dispatches of the C9 scenario trace. -/
def c9s5 : OState :=
  { nodeStates := [("A", NodeState.DISTILLING)],
    tasks := [("A",
               [("impl", 0),
                ("lint_attempt1", 1),
                ("tb", 2),
                ("tb_lint_attempt1", 3),
                ("sim_attempt1", 4),
                ("distill_attempt1", 5)])],
    pending := [],
    activeN := ["A"],
    doneN := [],
    attempt_by_node := [("A", 1)],
    debug_attempts_by_node := [("A", [("rtl_lint", 0), ("tb_lint", 0)])],
    tb_generated_by_node := [("A", true)],
    post_lint_next_kind := [],
    pending_debug := [],
    published := [{ task_id := 0,
                    node := "A",
                    entity := EntityType.REASONING,
                    ttype := TaskKind.IMPLEMENTATION,
                    attempt := none,
                    debug_reason := none },
                  { task_id := 1,
                    node := "A",
                    entity := EntityType.LIGHT_DETERMINISTIC,
                    ttype := TaskKind.LINTER,
                    attempt := some 1,
                    debug_reason := none },
                  { task_id := 2,
                    node := "A",
                    entity := EntityType.REASONING,
                    ttype := TaskKind.TESTBENCH,
                    attempt := none,
                    debug_reason := none },
                  { task_id := 3,
                    node := "A",
                    entity := EntityType.LIGHT_DETERMINISTIC,
                    ttype := TaskKind.TESTBENCH_LINTER,
                    attempt := some 1,
                    debug_reason := none },
                  { task_id := 4,
                    node := "A",
                    entity := EntityType.HEAVY_DETERMINISTIC,
                    ttype := TaskKind.SIMULATOR,
                    attempt := some 1,
                    debug_reason := none },
                  { task_id := 5,
                    node := "A",
                    entity := EntityType.LIGHT_DETERMINISTIC,
                    ttype := TaskKind.DISTILLATION,
                    attempt := some 1,
                    debug_reason := none }],
    nextTaskId := 6,
    memLogs := [("A/impl", "log"),
                ("A/lint_attempt1", "log"),
                ("A/tb", "log"),
                ("A/tb_lint_attempt1", "log"),
                ("A/sim_attempt1", "log")],
    memArtifacts := [],
    memSnapshots := ["A/sim_attempt1"],
    transitions := [("A", NodeState.IMPLEMENTING),
                    ("A", NodeState.LINTING),
                    ("A", NodeState.TESTBENCHING),
                    ("A", NodeState.TB_LINTING),
                    ("A", NodeState.SIMULATING),
                    ("A", NodeState.DISTILLING)] }

/-- The state reached after the first 6 dispatches of the C9 scenario trace. -/
def c9s6 : OState :=
  { nodeStates := [("A", NodeState.REFLECTING)],
    tasks := [("A",
               [("impl", 0),
                ("lint_attempt1", 1),
                ("tb", 2),
                ("tb_lint_attempt1", 3),
                ("sim_attempt1", 4),
                ("distill_attempt1", 5),
                ("reflect_attempt1", 6)])],
    pending := [],
    activeN := ["A"],
    doneN := [],
    attempt_by_node := [("A", 1)],
    debug_attempts_by_node := [("A", [("rtl_lint", 0), ("tb_lint", 0)])],
    tb_generated_by_node := [("A", true)],
    post_lint_next_kind := [],
    pending_debug := [],
    published := [{ task_id := 0,
                    node := "A",
                    entity := EntityType.REASONING,
                    ttype := TaskKind.IMPLEMENTATION,
                    attempt := none,
                    debug_reason := none },
                  { task_id := 1,
                    node := "A",
                    entity := EntityType.LIGHT_DETERMINISTIC,
                    ttype := TaskKind.LINTER,
                    attempt := some 1,
                    debug_reason := none },
                  { task_id := 2,
                    node := "A",
                    entity := EntityType.REASONING,
                    ttype := TaskKind.TESTBENCH,
                    attempt := none,
                    debug_reason := none },
                  { task_id := 3,
                    node := "A",
                    entity := EntityType.LIGHT_DETERMINISTIC,
                    ttype := TaskKind.TESTBENCH_LINTER,
                    attempt := some 1,
                    debug_reason := none },
                  { task_id := 4,
                    node := "A",
                    entity := EntityType.HEAVY_DETERMINISTIC,
                    ttype := TaskKind.SIMULATOR,
                    attempt := some 1,
                    debug_reason := none },
                  { task_id := 5,
                    node := "A",
                    entity := EntityType.LIGHT_DETERMINISTIC,
                    ttype := TaskKind.DISTILLATION,
                    attempt := some 1,
                    debug_reason := none },
                  { task_id := 6,
                    node := "A",
                    entity := EntityType.REASONING,
                    ttype := TaskKind.REFLECTION,
                    attempt := some 1,
                    debug_reason := none }],
    nextTaskId := 7,
    memLogs := [("A/impl", "log"),
                ("A/lint_attempt1", "log"),
                ("A/tb", "log"),
                ("A/tb_lint_attempt1", "log"),
                ("A/sim_attempt1", "log"),
                ("A/distill_attempt1", "log")],
    memArtifacts := [],
    memSnapshots := ["A/sim_attempt1"],
    transitions := [("A", NodeState.IMPLEMENTING),
                    ("A", NodeState.LINTING),
                    ("A", NodeState.TESTBENCHING),
                    ("A", NodeState.TB_LINTING),
                    ("A", NodeState.SIMULATING),
                    ("A", NodeState.DISTILLING),
                    ("A", NodeState.REFLECTING)] }

/-- The state reached after the first 7 dispatches of the C9 scenario trace. -/
def c9s7 : OState :=
  { nodeStates := [("A", NodeState.DEBUGGING)],
    tasks := [("A",
               [("impl", 0),
                ("lint_attempt1", 1),
                ("tb", 2),
                ("tb_lint_attempt1", 3),
                ("sim_attempt1", 4),
                ("distill_attempt1", 5),
                ("reflect_attempt1", 6),
                ("debug_attempt1", 7)])],
    pending := [],
    activeN := ["A"],
    doneN := [],
    attempt_by_node := [("A", 1)],
    debug_attempts_by_node := [("A", [("rtl_lint", 0), ("tb_lint", 0), ("sim", 1)])],
    tb_generated_by_node := [("A", true)],
    post_lint_next_kind := [],
    pending_debug := [("A", { rtl_sha := "r0", tb_sha := "t0", from_attempt := 1, reason := "sim" })],
    published := [{ task_id := 0,
                    node := "A",
                    entity := EntityType.REASONING,
                    ttype := TaskKind.IMPLEMENTATION,
                    attempt := none,
                    debug_reason := none },
                  { task_id := 1,
                    node := "A",
                    entity := EntityType.LIGHT_DETERMINISTIC,
                    ttype := TaskKind.LINTER,
                    attempt := some 1,
                    debug_reason := none },
                  { task_id := 2,
                    node := "A",
                    entity := EntityType.REASONING,
                    ttype := TaskKind.TESTBENCH,
                    attempt := none,
                    debug_reason := none },
                  { task_id := 3,
                    node := "A",
                    entity := EntityType.LIGHT_DETERMINISTIC,
                    ttype := TaskKind.TESTBENCH_LINTER,
                    attempt := some 1,
                    debug_reason := none },
                  { task_id := 4,
                    node := "A",
                    entity := EntityType.HEAVY_DETERMINISTIC,
                    ttype := TaskKind.SIMULATOR,
                    attempt := some 1,
                    debug_reason := none },
                  { task_id := 5,
                    node := "A",
                    entity := EntityType.LIGHT_DETERMINISTIC,
                    ttype := TaskKind.DISTILLATION,
                    attempt := some 1,
                    debug_reason := none },
                  { task_id := 6,
                    node := "A",
                    entity := EntityType.REASONING,
                    ttype := TaskKind.REFLECTION,
                    attempt := some 1,
                    debug_reason := none },
                  { task_id := 7,
                    node := "A",
                    entity := EntityType.REASONING,
                    ttype := TaskKind.DEBUG,
                    attempt := some 1,
                    debug_reason := some "sim" }],
    nextTaskId := 8,
    memLogs := [("A/impl", "log"),
                ("A/lint_attempt1", "log"),
                ("A/tb", "log"),
                ("A/tb_lint_attempt1", "log"),
                ("A/sim_attempt1", "log"),
                ("A/distill_attempt1", "log"),
                ("A/reflect_attempt1", "log")],
    memArtifacts := [],
    memSnapshots := ["A/sim_attempt1"],
    transitions := [("A", NodeState.IMPLEMENTING),
                    ("A", NodeState.LINTING),
                    ("A", NodeState.TESTBENCHING),
                    ("A", NodeState.TB_LINTING),
                    ("A", NodeState.SIMULATING),
                    ("A", NodeState.DISTILLING),
                    ("A", NodeState.REFLECTING),
                    ("A", NodeState.DEBUGGING)] }

/-- The state reached after the first 8 dispatches of the C9 scenario trace. -/
def c9s8 : OState :=
  { nodeStates := [("A", NodeState.TB_LINTING)],
    tasks := [("A",
               [("impl", 0),
                ("lint_attempt1", 1),
                ("tb", 2),
                ("tb_lint_attempt1", 3),
                ("sim_attempt1", 4),
                ("distill_attempt1", 5),
                ("reflect_attempt1", 6),
                ("debug_attempt1", 7),
                ("tb_lint_attempt2", 8)])],
    pending := [],
    activeN := ["A"],
    doneN := [],
    attempt_by_node := [("A", 2)],
    debug_attempts_by_node := [("A", [("rtl_lint", 0), ("tb_lint", 0), ("sim", 1)])],
    tb_generated_by_node := [("A", true)],
    post_lint_next_kind := [],
    pending_debug := [],
    published := [{ task_id := 0,
                    node := "A",
                    entity := EntityType.REASONING,
                    ttype := TaskKind.IMPLEMENTATION,
                    attempt := none,
                    debug_reason := none },
                  { task_id := 1,
                    node := "A",
                    entity := EntityType.LIGHT_DETERMINISTIC,
                    ttype := TaskKind.LINTER,
                    attempt := some 1,
                    debug_reason := none },
                  { task_id := 2,
                    node := "A",
                    entity := EntityType.REASONING,
                    ttype := TaskKind.TESTBENCH,
                    attempt := none,
                    debug_reason := none },
                  { task_id := 3,
                    node := "A",
                    entity := EntityType.LIGHT_DETERMINISTIC,
                    ttype := TaskKind.TESTBENCH_LINTER,
                    attempt := some 1,
                    debug_reason := none },
                  { task_id := 4,
                    node := "A",
                    entity := EntityType.HEAVY_DETERMINISTIC,
                    ttype := TaskKind.SIMULATOR,
                    attempt := some 1,
                    debug_reason := none },
                  { task_id := 5,
                    node := "A",
                    entity := EntityType.LIGHT_DETERMINISTIC,
                    ttype := TaskKind.DISTILLATION,
                    attempt := some 1,
                    debug_reason := none },
                  { task_id := 6,
                    node := "A",
                    entity := EntityType.REASONING,
                    ttype := TaskKind.REFLECTION,
                    attempt := some 1,
                    debug_reason := none },
                  { task_id := 7,
                    node := "A",
                    entity := EntityType.REASONING,
                    ttype := TaskKind.DEBUG,
                    attempt := some 1,
                    debug_reason := some "sim" },
                  { task_id := 8,
                    node := "A",
                    entity := EntityType.LIGHT_DETERMINISTIC,
                    ttype := TaskKind.TESTBENCH_LINTER,
                    attempt := some 2,
                    debug_reason := none }],
    nextTaskId := 9,
    memLogs := [("A/impl", "log"),
                ("A/lint_attempt1", "log"),
                ("A/tb", "log"),
                ("A/tb_lint_attempt1", "log"),
                ("A/sim_attempt1", "log"),
                ("A/distill_attempt1", "log"),
                ("A/reflect_attempt1", "log"),
                ("A/debug_attempt1", "log")],
    memArtifacts := [],
    memSnapshots := ["A/sim_attempt1"],
    transitions := [("A", NodeState.IMPLEMENTING),
                    ("A", NodeState.LINTING),
                    ("A", NodeState.TESTBENCHING),
                    ("A", NodeState.TB_LINTING),
                    ("A", NodeState.SIMULATING),
                    ("A", NodeState.DISTILLING),
                    ("A", NodeState.REFLECTING),
                    ("A", NodeState.DEBUGGING),
                    ("A", NodeState.TB_LINTING)] }

/-- A state about to process the third consecutive `rtl_lint` failure: the
ledger already records `max_debug_retries = 2` debug rounds for
`("A", "rtl_lint")` and a LINTING task at attempt 3 is outstanding. -/
def c2w : OState :=
  { nodeStates := [("A", NodeState.LINTING)],
    tasks := [("A", [("impl", 0), ("lint_attempt3", 5)])],
    pending := [], activeN := ["A"], doneN := [],
    attempt_by_node := [("A", 3)],
    debug_attempts_by_node := [("A", [("rtl_lint", 2)])],
    tb_generated_by_node := [("A", true)], post_lint_next_kind := [],
    pending_debug := [], published := [], nextTaskId := 6,
    memLogs := [], memArtifacts := [], memSnapshots := [], transitions := [] }

/-- A plain result message with no optional payloads. -/
def mkRes (tid : Nat) (st : TaskStatus) : ResultMsg :=
  { task_id := tid, status := st, artifacts_path := none, log_output := "log",
    reflection_insights := none, reflections := none }

end Orch

namespace Orch

/- ----- association-list lemmas ----- -/

theorem aGet_aSet_self {α : Type} (l : List (String × α)) (k : String) (v : α) :
    aGet (aSet l k v) k = some v := by
  induction l with
  | nil => simp [aSet, aGet]
  | cons p t ih =>
    obtain ⟨k1, v1⟩ := p
    by_cases hk : k1 = k
    · simp [aSet, aGet, hk]
    · have hk' : ¬ k = k1 := fun h => hk h.symm
      simp [aSet, aGet, hk, hk', ih]

theorem aGet_aSet_ne {α : Type} (l : List (String × α)) (k q : String) (v : α)
    (h : q ≠ k) : aGet (aSet l k v) q = aGet l q := by
  induction l with
  | nil => simp [aSet, aGet, h]
  | cons p t ih =>
    obtain ⟨k1, v1⟩ := p
    by_cases hk : k1 = k
    · subst hk
      have h' : ¬ q = k1 := h
      simp [aSet, aGet, h', ih]
    · by_cases hq : q = k1 <;> simp [aSet, aGet, hk, hq, ih]

theorem aGetD_aSet_self {α : Type} (l : List (String × α)) (k : String) (v d : α) :
    aGetD (aSet l k v) k d = v := by
  simp [aGetD, aGet_aSet_self]

theorem aGetD_aSet_ne {α : Type} (l : List (String × α)) (k q : String) (v d : α)
    (h : q ≠ k) : aGetD (aSet l k v) q d = aGetD l q d := by
  simp [aGetD, aGet_aSet_ne _ _ _ _ h]

theorem mem_sDel (l : List String) (k q : String) :
    q ∈ sDel l k ↔ q ∈ l ∧ q ≠ k := by
  simp [sDel, List.mem_filter]

theorem mem_sAdd (l : List String) (k q : String) :
    q ∈ sAdd l k ↔ q ∈ l ∨ q = k := by
  by_cases h : k ∈ l
  · simp only [sAdd, if_pos h]
    constructor
    · exact fun hq => Or.inl hq
    · rintro (hq | rfl) <;> [exact hq; exact h]
  · simp [sAdd, if_neg h]

theorem addedPubs_of_append (s s' : OState) (l : List PubRec)
    (h : s'.published = s.published ++ l) : addedPubs s s' = l := by
  simp [addedPubs, h]

/- ----- the record-to-Task-Memory phase touches only the memory fields ----- -/

theorem recordLogMem_published (s : OState) (n st log : String) :
    (recordLogMem s n st log).published = s.published := rfl

theorem recordArtifactMem_published (s : OState) (n st : String) (ap : Option String) :
    (recordArtifactMem s n st ap).published = s.published := by
  cases ap with
  | none => rfl
  | some p => by_cases h : p = "" <;> simp [recordArtifactMem, h]

theorem recordSnapshotMem_published (s : OState) (n st k : String) (ts : TaskStatus) :
    (recordSnapshotMem s n st k ts).published = s.published := by
  unfold recordSnapshotMem
  split_ifs <;> rfl

theorem recorded_published (s : OState) (node stage : String) (r : ResultMsg) :
    (recorded s node stage r).published = s.published := by
  unfold recorded
  rw [recordSnapshotMem_published, recordArtifactMem_published, recordLogMem_published]

theorem recordLogMem_pending (s : OState) (n st log : String) :
    (recordLogMem s n st log).pending = s.pending := rfl

theorem recordArtifactMem_pending (s : OState) (n st : String) (ap : Option String) :
    (recordArtifactMem s n st ap).pending = s.pending := by
  cases ap with
  | none => rfl
  | some p => by_cases h : p = "" <;> simp [recordArtifactMem, h]

theorem recordSnapshotMem_pending (s : OState) (n st k : String) (ts : TaskStatus) :
    (recordSnapshotMem s n st k ts).pending = s.pending := by
  unfold recordSnapshotMem
  split_ifs <;> rfl

theorem recorded_pending (s : OState) (node stage : String) (r : ResultMsg) :
    (recorded s node stage r).pending = s.pending := by
  unfold recorded
  rw [recordSnapshotMem_pending, recordArtifactMem_pending, recordLogMem_pending]

theorem recordLogMem_nodeStates (s : OState) (n st log : String) :
    (recordLogMem s n st log).nodeStates = s.nodeStates := rfl

theorem recordArtifactMem_nodeStates (s : OState) (n st : String) (ap : Option String) :
    (recordArtifactMem s n st ap).nodeStates = s.nodeStates := by
  cases ap with
  | none => rfl
  | some p => by_cases h : p = "" <;> simp [recordArtifactMem, h]

theorem recordSnapshotMem_nodeStates (s : OState) (n st k : String) (ts : TaskStatus) :
    (recordSnapshotMem s n st k ts).nodeStates = s.nodeStates := by
  unfold recordSnapshotMem
  split_ifs <;> rfl

theorem recorded_nodeStates (s : OState) (node stage : String) (r : ResultMsg) :
    (recorded s node stage r).nodeStates = s.nodeStates := by
  unfold recorded
  rw [recordSnapshotMem_nodeStates, recordArtifactMem_nodeStates, recordLogMem_nodeStates]

theorem recordLogMem_tasks (s : OState) (n st log : String) :
    (recordLogMem s n st log).tasks = s.tasks := rfl

theorem recordArtifactMem_tasks (s : OState) (n st : String) (ap : Option String) :
    (recordArtifactMem s n st ap).tasks = s.tasks := by
  cases ap with
  | none => rfl
  | some p => by_cases h : p = "" <;> simp [recordArtifactMem, h]

theorem recordSnapshotMem_tasks (s : OState) (n st k : String) (ts : TaskStatus) :
    (recordSnapshotMem s n st k ts).tasks = s.tasks := by
  unfold recordSnapshotMem
  split_ifs <;> rfl

theorem recorded_tasks (s : OState) (node stage : String) (r : ResultMsg) :
    (recorded s node stage r).tasks = s.tasks := by
  unfold recorded
  rw [recordSnapshotMem_tasks, recordArtifactMem_tasks, recordLogMem_tasks]

theorem recordLogMem_debug_attempts (s : OState) (n st log : String) :
    (recordLogMem s n st log).debug_attempts_by_node = s.debug_attempts_by_node := rfl

theorem recordArtifactMem_debug_attempts (s : OState) (n st : String) (ap : Option String) :
    (recordArtifactMem s n st ap).debug_attempts_by_node = s.debug_attempts_by_node := by
  cases ap with
  | none => rfl
  | some p => by_cases h : p = "" <;> simp [recordArtifactMem, h]

theorem recordSnapshotMem_debug_attempts (s : OState) (n st k : String) (ts : TaskStatus) :
    (recordSnapshotMem s n st k ts).debug_attempts_by_node = s.debug_attempts_by_node := by
  unfold recordSnapshotMem
  split_ifs <;> rfl

theorem recorded_debug_attempts (s : OState) (node stage : String) (r : ResultMsg) :
    (recorded s node stage r).debug_attempts_by_node = s.debug_attempts_by_node := by
  unfold recorded
  rw [recordSnapshotMem_debug_attempts, recordArtifactMem_debug_attempts, recordLogMem_debug_attempts]

theorem recordLogMem_attempt_by_node (s : OState) (n st log : String) :
    (recordLogMem s n st log).attempt_by_node = s.attempt_by_node := rfl

theorem recordArtifactMem_attempt_by_node (s : OState) (n st : String) (ap : Option String) :
    (recordArtifactMem s n st ap).attempt_by_node = s.attempt_by_node := by
  cases ap with
  | none => rfl
  | some p => by_cases h : p = "" <;> simp [recordArtifactMem, h]

theorem recordSnapshotMem_attempt_by_node (s : OState) (n st k : String) (ts : TaskStatus) :
    (recordSnapshotMem s n st k ts).attempt_by_node = s.attempt_by_node := by
  unfold recordSnapshotMem
  split_ifs <;> rfl

theorem recorded_attempt_by_node (s : OState) (node stage : String) (r : ResultMsg) :
    (recorded s node stage r).attempt_by_node = s.attempt_by_node := by
  unfold recorded
  rw [recordSnapshotMem_attempt_by_node, recordArtifactMem_attempt_by_node, recordLogMem_attempt_by_node]

theorem recordLogMem_pending_debug (s : OState) (n st log : String) :
    (recordLogMem s n st log).pending_debug = s.pending_debug := rfl

theorem recordArtifactMem_pending_debug (s : OState) (n st : String) (ap : Option String) :
    (recordArtifactMem s n st ap).pending_debug = s.pending_debug := by
  cases ap with
  | none => rfl
  | some p => by_cases h : p = "" <;> simp [recordArtifactMem, h]

theorem recordSnapshotMem_pending_debug (s : OState) (n st k : String) (ts : TaskStatus) :
    (recordSnapshotMem s n st k ts).pending_debug = s.pending_debug := by
  unfold recordSnapshotMem
  split_ifs <;> rfl

theorem recorded_pending_debug (s : OState) (node stage : String) (r : ResultMsg) :
    (recorded s node stage r).pending_debug = s.pending_debug := by
  unfold recorded
  rw [recordSnapshotMem_pending_debug, recordArtifactMem_pending_debug, recordLogMem_pending_debug]

theorem recordLogMem_tb_generated (s : OState) (n st log : String) :
    (recordLogMem s n st log).tb_generated_by_node = s.tb_generated_by_node := rfl

theorem recordArtifactMem_tb_generated (s : OState) (n st : String) (ap : Option String) :
    (recordArtifactMem s n st ap).tb_generated_by_node = s.tb_generated_by_node := by
  cases ap with
  | none => rfl
  | some p => by_cases h : p = "" <;> simp [recordArtifactMem, h]

theorem recordSnapshotMem_tb_generated (s : OState) (n st k : String) (ts : TaskStatus) :
    (recordSnapshotMem s n st k ts).tb_generated_by_node = s.tb_generated_by_node := by
  unfold recordSnapshotMem
  split_ifs <;> rfl

theorem recorded_tb_generated (s : OState) (node stage : String) (r : ResultMsg) :
    (recorded s node stage r).tb_generated_by_node = s.tb_generated_by_node := by
  unfold recorded
  rw [recordSnapshotMem_tb_generated, recordArtifactMem_tb_generated, recordLogMem_tb_generated]

theorem recordLogMem_post_lint (s : OState) (n st log : String) :
    (recordLogMem s n st log).post_lint_next_kind = s.post_lint_next_kind := rfl

theorem recordArtifactMem_post_lint (s : OState) (n st : String) (ap : Option String) :
    (recordArtifactMem s n st ap).post_lint_next_kind = s.post_lint_next_kind := by
  cases ap with
  | none => rfl
  | some p => by_cases h : p = "" <;> simp [recordArtifactMem, h]

theorem recordSnapshotMem_post_lint (s : OState) (n st k : String) (ts : TaskStatus) :
    (recordSnapshotMem s n st k ts).post_lint_next_kind = s.post_lint_next_kind := by
  unfold recordSnapshotMem
  split_ifs <;> rfl

theorem recorded_post_lint (s : OState) (node stage : String) (r : ResultMsg) :
    (recorded s node stage r).post_lint_next_kind = s.post_lint_next_kind := by
  unfold recorded
  rw [recordSnapshotMem_post_lint, recordArtifactMem_post_lint, recordLogMem_post_lint]

theorem recordLogMem_nextTaskId (s : OState) (n st log : String) :
    (recordLogMem s n st log).nextTaskId = s.nextTaskId := rfl

theorem recordArtifactMem_nextTaskId (s : OState) (n st : String) (ap : Option String) :
    (recordArtifactMem s n st ap).nextTaskId = s.nextTaskId := by
  cases ap with
  | none => rfl
  | some p => by_cases h : p = "" <;> simp [recordArtifactMem, h]

theorem recordSnapshotMem_nextTaskId (s : OState) (n st k : String) (ts : TaskStatus) :
    (recordSnapshotMem s n st k ts).nextTaskId = s.nextTaskId := by
  unfold recordSnapshotMem
  split_ifs <;> rfl

theorem recorded_nextTaskId (s : OState) (node stage : String) (r : ResultMsg) :
    (recorded s node stage r).nextTaskId = s.nextTaskId := by
  unfold recorded
  rw [recordSnapshotMem_nextTaskId, recordArtifactMem_nextTaskId, recordLogMem_nextTaskId]

/- ----- entering the two dispatch branches ----- -/

theorem processResult_failure_eq (cfg : Cfg) (fs : FS) (s : OState) (r : ResultMsg)
    (node stage : String)
    (hfind : findTask s.tasks r.task_id = some (node, stage))
    (hri : r.reflection_insights = none) (hrf : r.reflections = none)
    (hst : r.status = TaskStatus.FAILURE) :
    processResult cfg fs s r =
      (handleFailure cfg fs (recorded s node stage r) node
        (parse_stage_key stage).1 (parse_stage_key stage).2, none) := by
  unfold processResult recorded
  rw [hfind]
  simp [hri, hrf, hst, pyTruthyStr]

theorem processResult_success_eq (cfg : Cfg) (fs : FS) (s : OState) (r : ResultMsg)
    (node stage : String)
    (hfind : findTask s.tasks r.task_id = some (node, stage))
    (hri : r.reflection_insights = none) (hrf : r.reflections = none)
    (hst : r.status = TaskStatus.SUCCESS) :
    processResult cfg fs s r =
      (handleSuccess cfg fs (recorded s node stage r) node
        (parse_stage_key stage).1 (parse_stage_key stage).2, none) := by
  unfold processResult recorded
  rw [hfind]
  simp [hri, hrf, hst, pyTruthyStr]

/- ----- effect lemmas for the scheduling helpers ----- -/

theorem startNode_nodeStates (cfg : Cfg) (s : OState) (n : String) :
    (startNode cfg s n).nodeStates = aSet s.nodeStates n NodeState.IMPLEMENTING := rfl

theorem startNode_published (cfg : Cfg) (s : OState) (n : String) :
    (startNode cfg s n).published = s.published ++
      [{ task_id := s.nextTaskId, node := n, entity := EntityType.REASONING,
         ttype := TaskKind.IMPLEMENTATION, attempt := none, debug_reason := none }] := rfl

theorem startNode_pending (cfg : Cfg) (s : OState) (n : String) :
    (startNode cfg s n).pending = sDel s.pending n := rfl

theorem startNode_doneN (cfg : Cfg) (s : OState) (n : String) :
    (startNode cfg s n).doneN = s.doneN := rfl

theorem startNode_pending_debug (cfg : Cfg) (s : OState) (n : String) :
    (startNode cfg s n).pending_debug = s.pending_debug := rfl

theorem startNode_getDebug (cfg : Cfg) (s : OState) (n m r : String) :
    getDebugAttempts (startNode cfg s n) m r =
      if m = n then 0 else getDebugAttempts s m r := by
  have hds : (startNode cfg s n).debug_attempts_by_node =
      aSet s.debug_attempts_by_node n [] := rfl
  by_cases h : m = n
  · subst h
    simp [getDebugAttempts, hds, aGetD, aGet_aSet_self, aGet]
  · simp only [if_neg h]
    have : (startNode cfg s n).debug_attempts_by_node = aSet s.debug_attempts_by_node n [] := rfl
    simp [getDebugAttempts, this, aGetD_aSet_ne _ _ _ _ _ h]

/-- The fold inside `start_ready_nodes`, abstracted over the starting list. -/
theorem foldl_startNode_nodeStates (cfg : Cfg) (L : List String) (s : OState)
    (d : String) (h : d ∉ L) :
    aGet (L.foldl (startNode cfg) s).nodeStates d = aGet s.nodeStates d := by
  induction L generalizing s with
  | nil => rfl
  | cons n t ih =>
    have hdn : d ≠ n := fun he => h (he ▸ List.mem_cons_self n t)
    have hdt : d ∉ t := fun he => h (List.mem_cons_of_mem n he)
    calc aGet ((n :: t).foldl (startNode cfg) s).nodeStates d
        = aGet (t.foldl (startNode cfg) (startNode cfg s n)).nodeStates d := rfl
      _ = aGet (startNode cfg s n).nodeStates d := ih (startNode cfg s n) hdt
      _ = aGet s.nodeStates d := by
            rw [startNode_nodeStates, aGet_aSet_ne _ _ _ _ hdn]

theorem foldl_startNode_published (cfg : Cfg) (L : List String) (s : OState) :
    ∃ l, (L.foldl (startNode cfg) s).published = s.published ++ l ∧
      ∀ p ∈ l, p.node ∈ L ∧ p.ttype = TaskKind.IMPLEMENTATION := by
  induction L generalizing s with
  | nil => exact ⟨[], by simp, by simp⟩
  | cons n t ih =>
    obtain ⟨l, hl, hmem⟩ := ih (startNode cfg s n)
    refine ⟨{ task_id := s.nextTaskId, node := n, entity := EntityType.REASONING,
              ttype := TaskKind.IMPLEMENTATION, attempt := none,
              debug_reason := none } :: l, ?_, ?_⟩
    · show (t.foldl (startNode cfg) (startNode cfg s n)).published = _
      rw [hl, startNode_published]
      simp
    · intro p hp
      rcases List.mem_cons.mp hp with h | h
      · subst h
        exact ⟨List.mem_cons_self _ _, rfl⟩
      · exact ⟨List.mem_cons_of_mem _ (hmem p h).1, (hmem p h).2⟩

theorem foldl_startNode_doneN (cfg : Cfg) (L : List String) (s : OState) :
    (L.foldl (startNode cfg) s).doneN = s.doneN := by
  induction L generalizing s with
  | nil => rfl
  | cons n t ih => exact (ih (startNode cfg s n)).trans rfl

theorem foldl_startNode_pending_debug (cfg : Cfg) (L : List String) (s : OState) :
    (L.foldl (startNode cfg) s).pending_debug = s.pending_debug := by
  induction L generalizing s with
  | nil => rfl
  | cons n t ih => exact (ih (startNode cfg s n)).trans rfl

theorem foldl_startNode_getDebug_le (cfg : Cfg) (L : List String) (s : OState)
    (B : Nat) (h : ∀ m r, getDebugAttempts s m r ≤ B) :
    ∀ m r, getDebugAttempts (L.foldl (startNode cfg) s) m r ≤ B := by
  induction L generalizing s with
  | nil => exact h
  | cons n t ih =>
    refine ih (startNode cfg s n) (fun m r => ?_)
    rw [startNode_getDebug]
    by_cases hm : m = n
    · simp [hm]
    · simpa [hm] using h m r

/- ----- `start_ready_nodes` ----- -/

theorem startReadyNodes_nodeStates (cfg : Cfg) (s : OState) (d : String)
    (h : d ∉ s.pending) :
    aGet (startReadyNodes cfg s).nodeStates d = aGet s.nodeStates d := by
  apply foldl_startNode_nodeStates
  intro hmem
  exact h (List.mem_of_mem_filter hmem)

theorem startReadyNodes_published (cfg : Cfg) (s : OState) :
    ∃ l, (startReadyNodes cfg s).published = s.published ++ l ∧
      ∀ p ∈ l, p.node ∈ s.pending ∧ p.ttype = TaskKind.IMPLEMENTATION := by
  obtain ⟨l, hl, hmem⟩ := foldl_startNode_published cfg
    (s.pending.filter (fun n => (aGetD cfg.deps n []).all (fun d => d ∈ s.doneN))) s
  exact ⟨l, hl, fun p hp => ⟨List.mem_of_mem_filter (hmem p hp).1, (hmem p hp).2⟩⟩

theorem startReadyNodes_doneN (cfg : Cfg) (s : OState) :
    (startReadyNodes cfg s).doneN = s.doneN :=
  foldl_startNode_doneN cfg _ s

theorem startReadyNodes_pending_debug (cfg : Cfg) (s : OState) :
    (startReadyNodes cfg s).pending_debug = s.pending_debug :=
  foldl_startNode_pending_debug cfg _ s

theorem startReadyNodes_getDebug_le (cfg : Cfg) (s : OState) (B : Nat)
    (h : ∀ m r, getDebugAttempts s m r ≤ B) :
    ∀ m r, getDebugAttempts (startReadyNodes cfg s) m r ≤ B :=
  foldl_startNode_getDebug_le cfg _ s B h

/- ----- `fail_dependents` ----- -/

theorem failDependents_eq_fold (cfg : Cfg) (s : OState) (f : String) :
    failDependents cfg s f =
      (s.pending.filter (fun n => f ∈ aGetD cfg.deps n [])).foldl failOne s := rfl

theorem foldl_failOne_published (L : List String) (s : OState) :
    (L.foldl failOne s).published = s.published := by
  induction L generalizing s with
  | nil => rfl
  | cons n t ih => exact (ih (failOne s n)).trans rfl

theorem foldl_failOne_tasks (L : List String) (s : OState) :
    (L.foldl failOne s).tasks = s.tasks := by
  induction L generalizing s with
  | nil => rfl
  | cons n t ih => exact (ih (failOne s n)).trans rfl

theorem foldl_failOne_pending_debug (L : List String) (s : OState) :
    (L.foldl failOne s).pending_debug = s.pending_debug := by
  induction L generalizing s with
  | nil => rfl
  | cons n t ih => exact (ih (failOne s n)).trans rfl

theorem foldl_failOne_debug_attempts (L : List String) (s : OState) :
    (L.foldl failOne s).debug_attempts_by_node = s.debug_attempts_by_node := by
  induction L generalizing s with
  | nil => rfl
  | cons n t ih => exact (ih (failOne s n)).trans rfl

theorem foldl_failOne_pending_mono (L : List String) (s : OState) (q : String)
    (h : q ∈ (L.foldl failOne s).pending) : q ∈ s.pending := by
  induction L generalizing s with
  | nil => exact h
  | cons n t ih =>
    have h1 : q ∈ (failOne s n).pending := ih (failOne s n) h
    exact ((mem_sDel _ _ _).mp h1).1

theorem foldl_failOne_pending_notin (L : List String) (s : OState) (q : String)
    (h : q ∈ (L.foldl failOne s).pending) : q ∉ L := by
  induction L generalizing s with
  | nil => simp
  | cons n t ih =>
    intro hq
    have h1 : q ∈ (failOne s n).pending := foldl_failOne_pending_mono t (failOne s n) q h
    have hqn : q ≠ n := ((mem_sDel _ _ _).mp h1).2
    rcases List.mem_cons.mp hq with he | ht
    · exact hqn he
    · exact ih (failOne s n) h ht

theorem foldl_failOne_nodeStates_ne (L : List String) (s : OState) (d : String)
    (h : d ∉ L) :
    aGet (L.foldl failOne s).nodeStates d = aGet s.nodeStates d := by
  induction L generalizing s with
  | nil => rfl
  | cons n t ih =>
    have hdn : d ≠ n := fun he => h (he ▸ List.mem_cons_self n t)
    have hdt : d ∉ t := fun he => h (List.mem_cons_of_mem n he)
    have h1 : aGet (failOne s n).nodeStates d = aGet s.nodeStates d := by
      show aGet (aSet s.nodeStates n NodeState.FAILED) d = aGet s.nodeStates d
      exact aGet_aSet_ne _ _ _ _ hdn
    exact ((ih (failOne s n) hdt).trans h1)

/-- Once a node is FAILED and out of `pending`, the rest of the
`fail_dependents` fold keeps it that way. -/
theorem foldl_failOne_keeps_failed (L : List String) (s : OState) (d : String)
    (hst : aGet s.nodeStates d = some NodeState.FAILED) (hp : d ∉ s.pending) :
    aGet (L.foldl failOne s).nodeStates d = some NodeState.FAILED ∧
      d ∉ (L.foldl failOne s).pending := by
  induction L generalizing s with
  | nil => exact ⟨hst, hp⟩
  | cons n t ih =>
    apply ih (failOne s n)
    · by_cases hdn : d = n
      · subst hdn
        exact aGet_aSet_self _ _ _
      · show aGet (aSet s.nodeStates n NodeState.FAILED) d = some NodeState.FAILED
        rw [aGet_aSet_ne _ _ _ _ hdn]
        exact hst
    · intro hmem
      exact hp ((mem_sDel _ _ _).mp hmem).1

/-- Every pending node that lists the failed node as a dependency comes out
of `fail_dependents` FAILED and no longer pending. -/
theorem foldl_failOne_hits (L : List String) (s : OState) (d : String)
    (hd : d ∈ L) :
    aGet (L.foldl failOne s).nodeStates d = some NodeState.FAILED ∧
      d ∉ (L.foldl failOne s).pending := by
  induction L generalizing s with
  | nil => cases hd
  | cons n t ih =>
    show aGet (t.foldl failOne (failOne s n)).nodeStates d = _ ∧
      d ∉ (t.foldl failOne (failOne s n)).pending
    rcases List.mem_cons.mp hd with he | ht
    · subst he
      apply foldl_failOne_keeps_failed
      · exact aGet_aSet_self _ _ _
      · intro hmem
        exact ((mem_sDel _ _ _).mp hmem).2 rfl
    · exact ih (failOne s n) ht

theorem failDependents_dependent (cfg : Cfg) (s : OState) (f d : String)
    (hd : d ∈ s.pending) (hdep : f ∈ aGetD cfg.deps d []) :
    aGet (failDependents cfg s f).nodeStates d = some NodeState.FAILED ∧
      d ∉ (failDependents cfg s f).pending := by
  rw [failDependents_eq_fold]
  apply foldl_failOne_hits
  simp only [List.mem_filter, decide_eq_true_eq]
  exact ⟨hd, hdep⟩

theorem failDependents_pending_mono (cfg : Cfg) (s : OState) (f q : String)
    (h : q ∈ (failDependents cfg s f).pending) : q ∈ s.pending := by
  rw [failDependents_eq_fold] at h
  exact foldl_failOne_pending_mono _ _ _ h

/- ----- `_finish_failed` and `_finish_done` ----- -/

/-- The state handed to `fail_dependents` inside `_finish_failed`. -/
theorem finishFailed_eq (cfg : Cfg) (s : OState) (node : String) :
    finishFailed cfg s node =
      startReadyNodes cfg (failDependents cfg
        (let s1 := applyAdvance s node NodeState.FAILED
         { s1 with activeN := sDel s1.activeN node, doneN := sAdd s1.doneN node }) node) := rfl

/-- A node finalized through `_finish_failed` that is not pending comes out
FAILED: neither the cascade nor the readiness restart can touch it. -/
theorem finishFailed_self (cfg : Cfg) (s : OState) (node : String)
    (h : node ∉ s.pending) :
    aGet (finishFailed cfg s node).nodeStates node = some NodeState.FAILED := by
  rw [finishFailed_eq]
  set s2 := (let s1 := applyAdvance s node NodeState.FAILED
    { s1 with activeN := sDel s1.activeN node, doneN := sAdd s1.doneN node }) with hs2
  have hpend2 : s2.pending = s.pending := rfl
  have hni : node ∉ (failDependents cfg s2 node).pending := by
    intro hmem
    exact h (hpend2 ▸ failDependents_pending_mono cfg s2 node node hmem)
  rw [startReadyNodes_nodeStates cfg _ node hni]
  have hblk : node ∉ s2.pending.filter (fun n => node ∈ aGetD cfg.deps n []) := by
    intro hmem
    exact h (hpend2 ▸ List.mem_of_mem_filter hmem)
  rw [failDependents_eq_fold]
  rw [foldl_failOne_nodeStates_ne _ _ _ hblk]
  show aGet (aSet s.nodeStates node NodeState.FAILED) node = _
  exact aGet_aSet_self _ _ _

/-- The tasks published inside `_finish_failed` are exactly the
IMPLEMENTATION tasks of nodes that were still pending. -/
theorem finishFailed_published (cfg : Cfg) (s : OState) (node : String)
    (h : node ∉ s.pending) :
    ∃ l, (finishFailed cfg s node).published = s.published ++ l ∧
      ∀ p ∈ l, p.node ∈ s.pending ∧ p.node ≠ node ∧
        p.ttype = TaskKind.IMPLEMENTATION ∧ node ∉ aGetD cfg.deps p.node [] := by
  rw [finishFailed_eq]
  set s2 := (let s1 := applyAdvance s node NodeState.FAILED
    { s1 with activeN := sDel s1.activeN node, doneN := sAdd s1.doneN node }) with hs2
  have hpend2 : s2.pending = s.pending := rfl
  set s3 := failDependents cfg s2 node with hs3
  have hpub3 : s3.published = s.published := by
    rw [hs3, failDependents_eq_fold, foldl_failOne_published]
    rfl
  obtain ⟨l, hl, hmem⟩ := startReadyNodes_published cfg s3
  refine ⟨l, by rw [hl, hpub3], fun p hp => ?_⟩
  have hp3 : p.node ∈ s3.pending := (hmem p hp).1
  have hpnode : p.node ∈ s.pending := by
    rw [← hpend2]
    exact failDependents_pending_mono cfg s2 node p.node hp3
  have hnotdep : node ∉ aGetD cfg.deps p.node [] := by
    intro hdep
    have := failDependents_dependent cfg s2 node p.node (hpend2 ▸ hpnode) hdep
    exact this.2 hp3
  exact ⟨hpnode, fun he => h (he ▸ hpnode), (hmem p hp).2, hnotdep⟩

/-- Cascade guarantee of `_finish_failed`: a pending direct dependent of the
failed node is finalized FAILED in the same call and is not restarted. -/
theorem finishFailed_dependent (cfg : Cfg) (s : OState) (node d : String)
    (hd : d ∈ s.pending)
    (hdep : node ∈ aGetD cfg.deps d []) :
    aGet (finishFailed cfg s node).nodeStates d = some NodeState.FAILED := by
  rw [finishFailed_eq]
  set s2 := (let s1 := applyAdvance s node NodeState.FAILED
    { s1 with activeN := sDel s1.activeN node, doneN := sAdd s1.doneN node }) with hs2
  have hpend2 : s2.pending = s.pending := rfl
  obtain ⟨hfd, hnp⟩ := failDependents_dependent cfg s2 node d (hpend2 ▸ hd) hdep
  rw [startReadyNodes_nodeStates cfg _ d hnp]
  exact hfd

theorem finishFailed_pending_debug (cfg : Cfg) (s : OState) (node : String) :
    (finishFailed cfg s node).pending_debug = s.pending_debug := by
  rw [finishFailed_eq, startReadyNodes_pending_debug, failDependents_eq_fold,
    foldl_failOne_pending_debug]
  rfl

theorem failDependents_debug_attempts (cfg : Cfg) (s : OState) (f : String) :
    (failDependents cfg s f).debug_attempts_by_node = s.debug_attempts_by_node := by
  rw [failDependents_eq_fold]
  exact foldl_failOne_debug_attempts _ _

theorem getDebugAttempts_ext (s s' : OState)
    (h : s'.debug_attempts_by_node = s.debug_attempts_by_node) (m r : String) :
    getDebugAttempts s' m r = getDebugAttempts s m r := by
  simp [getDebugAttempts, h]

theorem finishFailed_getDebug_le (cfg : Cfg) (s : OState) (node : String)
    (B : Nat) (h : ∀ m r, getDebugAttempts s m r ≤ B) :
    ∀ m r, getDebugAttempts (finishFailed cfg s node) m r ≤ B := by
  rw [finishFailed_eq]
  apply startReadyNodes_getDebug_le
  intro m r
  rw [getDebugAttempts_ext _ _ (failDependents_debug_attempts cfg _ node) m r]
  exact h m r

theorem finishDone_eq (cfg : Cfg) (s : OState) (node : String) :
    finishDone cfg s node =
      startReadyNodes cfg
        (let s1 := applyAdvance s node NodeState.DONE
         { s1 with activeN := sDel s1.activeN node, doneN := sAdd s1.doneN node }) := rfl

theorem finishDone_self (cfg : Cfg) (s : OState) (node : String)
    (h : node ∉ s.pending) :
    aGet (finishDone cfg s node).nodeStates node = some NodeState.DONE := by
  rw [finishDone_eq]
  set s2 := (let s1 := applyAdvance s node NodeState.DONE
    { s1 with activeN := sDel s1.activeN node, doneN := sAdd s1.doneN node }) with hs2
  have h2 : node ∉ s2.pending := h
  rw [startReadyNodes_nodeStates cfg s2 node h2]
  show aGet (aSet s.nodeStates node NodeState.DONE) node = _
  exact aGet_aSet_self _ _ _

theorem finishDone_published (cfg : Cfg) (s : OState) (node : String) :
    ∃ l, (finishDone cfg s node).published = s.published ++ l ∧
      ∀ p ∈ l, p.node ∈ s.pending ∧ p.ttype = TaskKind.IMPLEMENTATION := by
  obtain ⟨l, hl, hmem⟩ := startReadyNodes_published cfg
    (let s1 := applyAdvance s node NodeState.DONE
     { s1 with activeN := sDel s1.activeN node, doneN := sAdd s1.doneN node })
  exact ⟨l, hl, hmem⟩

theorem finishDone_getDebug_le (cfg : Cfg) (s : OState) (node : String)
    (B : Nat) (h : ∀ m r, getDebugAttempts s m r ≤ B) :
    ∀ m r, getDebugAttempts (finishDone cfg s node) m r ≤ B := by
  apply startReadyNodes_getDebug_le
  exact h

/- ----- `startDebug` ledger arithmetic ----- -/

theorem startDebug_published (cfg : Cfg) (fs : FS) (s : OState)
    (n rs : String) (a : Nat) :
    (startDebug cfg fs s n rs a).published = s.published ++
      [{ task_id := s.nextTaskId, node := n, entity := EntityType.REASONING,
         ttype := TaskKind.DEBUG, attempt := some a, debug_reason := some rs }] := rfl

theorem startDebug_nodeStates (cfg : Cfg) (fs : FS) (s : OState)
    (n rs : String) (a : Nat) :
    (startDebug cfg fs s n rs a).nodeStates = aSet s.nodeStates n NodeState.DEBUGGING := rfl

theorem startDebug_getDebug (cfg : Cfg) (fs : FS) (s : OState)
    (n rs m r : String) (a : Nat) :
    getDebugAttempts (startDebug cfg fs s n rs a) m r =
      if m = n ∧ r = rs then getDebugAttempts s n rs + 1
      else getDebugAttempts s m r := by
  have hda : (startDebug cfg fs s n rs a).debug_attempts_by_node =
      aSet s.debug_attempts_by_node n
        (aSet (aGetD s.debug_attempts_by_node n []) rs
          (getDebugAttempts s n rs + 1)) := rfl
  simp only [getDebugAttempts, hda]
  by_cases hm : m = n
  · subst hm
    rw [aGetD_aSet_self]
    by_cases hr : r = rs
    · subst hr
      rw [aGetD_aSet_self]
      simp [getDebugAttempts]
    · rw [aGetD_aSet_ne _ _ _ _ _ hr]
      simp [hr, getDebugAttempts]
  · rw [aGetD_aSet_ne _ _ _ _ _ hm]
    simp [hm, getDebugAttempts]

/- ----- claim C1: duplicate-result idempotence ----- -/

/-- Claim C1, counterexample: dispatching the same `ResultMessage` twice is
not idempotent.  `tasks` never drops a resolved entry (no deletion occurs
anywhere in the loop), so the duplicate of the IMPLEMENTATION success
re-matches, re-advances the node to LINTING and publishes a second LINTER
task: the state after the duplicate differs from the state before it. -/
theorem C1_counterexample :
    step exCfgA exFs0 (step exCfgA exFs0 (initState exCfgA) (mkRes 0 TaskStatus.SUCCESS))
        (mkRes 0 TaskStatus.SUCCESS) ≠
      step exCfgA exFs0 (initState exCfgA) (mkRes 0 TaskStatus.SUCCESS) := by
  decide

/-- Claim C1 (amended): only a result whose `task_id` matches no entry of the
outstanding-task map is ignored; such a dispatch leaves the whole
orchestrator state unchanged and raises nothing. -/
theorem C1_unmatched_noop (cfg : Cfg) (fs : FS) (s : OState) (r : ResultMsg)
    (h : findTask s.tasks r.task_id = none) :
    processResult cfg fs s r = (s, none) := by
  unfold processResult
  rw [h]

/-- Claim C1 witness: a result id never published (`initState` published task
ids `0..`; id `5` is free) is dropped unchanged. -/
theorem C1_unmatched_noop_witness :
    processResult exCfgA exFs0 (initState exCfgA) (mkRes 5 TaskStatus.SUCCESS) =
      (initState exCfgA, none) :=
  C1_unmatched_noop exCfgA exFs0 (initState exCfgA) (mkRes 5 TaskStatus.SUCCESS) (by decide)

/- ----- claim C4: failure cascade ----- -/

/-- Claim C4, counterexample: the cascade is single-level.  In the chain
`A ← B ← C`, a failed IMPLEMENTATION result for `A` finalizes `A` FAILED and
cascades to its direct dependent `B`; but `C`, a pending node listing the
cascade-FAILED `B` as a dependency, is not finalized FAILED — `B` now counts
as done for readiness, so `C` is started and an IMPLEMENTATION task is
published for `C` in the same dispatch. -/
theorem C4_counterexample :
    let sfin := (runLoop exCfgABC (initState exCfgABC)
      [(exFs0, mkRes 0 TaskStatus.FAILURE)]).1
    aGet sfin.nodeStates "B" = some NodeState.FAILED ∧
      aGetD exCfgABC.deps "C" [] = ["B"] ∧
      aGet sfin.nodeStates "C" = some NodeState.IMPLEMENTING ∧
      (sfin.published.filter (fun p => p.node == "C")).length = 1 := by
  decide

/-- Claim C4 (amended): when a node (already started, i.e. not pending) is
finalized through `_finish_failed`, every pending node that lists it as a
direct dependency is finalized FAILED within the same call, and no task of
any kind is published for such a node in that call.  The cascade is
single-level: a node failed by the cascade joins `done_nodes` without
`_finish_failed` running for it, so its own dependents are not failed — the
counterexample shows they are started instead. -/
theorem C4_direct_dependent_cascade (cfg : Cfg) (s : OState) (node d : String)
    (hp : node ∉ s.pending) (hd : d ∈ s.pending)
    (hdep : node ∈ aGetD cfg.deps d []) :
    aGet (finishFailed cfg s node).nodeStates d = some NodeState.FAILED ∧
      ∀ p ∈ addedPubs s (finishFailed cfg s node), p.node ≠ d := by
  refine ⟨finishFailed_dependent cfg s node d hd hdep, ?_⟩
  obtain ⟨l, hl, hmem⟩ := finishFailed_published cfg s node hp
  rw [addedPubs_of_append s _ l hl]
  intro p hpmem he
  exact (hmem p hpmem).2.2.2 (he ▸ hdep)

/-- Claim C4 witness: in the chain `A ← B ← C` right after startup, failing
`A` cascades to the pending direct dependent `B` with nothing published
for `B`. -/
theorem C4_direct_dependent_cascade_witness :
    aGet (finishFailed exCfgABC (initState exCfgABC) "A").nodeStates "B" =
        some NodeState.FAILED ∧
      ∀ p ∈ addedPubs (initState exCfgABC) (finishFailed exCfgABC (initState exCfgABC) "A"),
        p.node ≠ "B" :=
  C4_direct_dependent_cascade exCfgABC (initState exCfgABC) "A" "B"
    (by decide) (by decide) (by decide)

/- ----- claim C5: state callback ----- -/

/-- Claim C5, counterexample: `_advance` has no try/except around the
callback, so a callback that raises propagates its error out of the
transition. -/
theorem C5_counterexample :
    (advanceCb (some (fun _ _ => Except.error "cb boom"))
      [("A", NodeState.PENDING)] "A" NodeState.LINTING).2 = some "cb boom" := rfl

/-- Claim C5 (amended): the state update of `_advance` always completes —
`Node.transition` runs before the callback — and the only error that can
escape `_advance` is one raised by the supplied callback; in particular an
absent callback never blocks or fails the transition. -/
theorem C5_advance_state_updated (cb : Option (String → NodeState → Except String Unit))
    (ns : List (String × NodeState)) (node : String) (st : NodeState) :
    (advanceCb cb ns node st).1 = aSet ns node st ∧
      ((advanceCb cb ns node st).2 = none ∨
        ∃ e f, cb = some f ∧ f node st = Except.error e ∧
          (advanceCb cb ns node st).2 = some e) := by
  cases cb with
  | none => exact ⟨rfl, Or.inl rfl⟩
  | some f =>
    cases hf : f node st with
    | ok u =>
      exact ⟨by simp [advanceCb, hf], Or.inl (by simp [advanceCb, hf])⟩
    | error e =>
      exact ⟨by simp [advanceCb, hf],
        Or.inr ⟨e, f, rfl, hf, by simp [advanceCb, hf]⟩⟩

/- ----- claim C6: per-result errors and the control loop ----- -/

/-- Claim C6, counterexample: a successful IMPLEMENTATION result that carries
`reflection_insights` makes the loop call the nonexistent
`TaskMemory.record_json`, and the resulting `AttributeError` terminates the
run loop instead of being caught and converted into a node failure. -/
theorem C6_counterexample :
    (runLoop exCfgA (initState exCfgA)
      [(exFs0, { task_id := 0, status := TaskStatus.SUCCESS,
                 artifacts_path := none, log_output := "l",
                 reflection_insights := some "insights", reflections := none })]).2 =
      some PyErr.attributeError := by
  decide

/-- Claim C6 (amended): an error while persisting a structured payload to
Task Memory is not caught — a matched result carrying `reflection_insights`
makes the dispatch raise `AttributeError` (TaskMemory has no `record_json`),
and the run loop stops at that message, never processing the rest of the
delivery schedule. -/
theorem C6_payload_error_uncaught (cfg : Cfg) (fs : FS) (s : OState)
    (r : ResultMsg) (rest : List (FS × ResultMsg)) (node stage : String)
    (hfind : findTask s.tasks r.task_id = some (node, stage))
    (hri : r.reflection_insights.isSome = true) :
    (processResult cfg fs s r).2 = some PyErr.attributeError ∧
      runLoop cfg s ((fs, r) :: rest) = processResult cfg fs s r := by
  have hpr : (processResult cfg fs s r).2 = some PyErr.attributeError := by
    unfold processResult
    rw [hfind]
    simp [hri]
  refine ⟨hpr, ?_⟩
  show (match processResult cfg fs s r with
    | (s', none) => runLoop cfg s' rest
    | (s', some e) => (s', some e)) = processResult cfg fs s r
  obtain ⟨s', e, he⟩ : ∃ s' e, processResult cfg fs s r = (s', some e) := by
    refine ⟨(processResult cfg fs s r).1, PyErr.attributeError, ?_⟩
    rw [← hpr]
  rw [he]

/-- Claim C6 witness: the loop aborts on the first reflection-bearing result
even with further messages queued behind it. -/
theorem C6_payload_error_uncaught_witness :
    (processResult exCfgA exFs0 (initState exCfgA)
        { task_id := 0, status := TaskStatus.SUCCESS, artifacts_path := none,
          log_output := "l", reflection_insights := some "i", reflections := none }).2 =
        some PyErr.attributeError ∧
      runLoop exCfgA (initState exCfgA)
          [(exFs0, { task_id := 0, status := TaskStatus.SUCCESS, artifacts_path := none,
                     log_output := "l", reflection_insights := some "i", reflections := none }),
           (exFs0, mkRes 1 TaskStatus.SUCCESS)] =
        processResult exCfgA exFs0 (initState exCfgA)
          { task_id := 0, status := TaskStatus.SUCCESS, artifacts_path := none,
            log_output := "l", reflection_insights := some "i", reflections := none } :=
  C6_payload_error_uncaught exCfgA exFs0 (initState exCfgA) _ _ "A" "impl"
    (by decide) (by decide)

/-- A failed stage of any kind other than `lint`, `sim`, `tb_lint` lands in
the final `_finish_failed` arm of the failure block (source line 367). -/
theorem handleFailure_other (cfg : Cfg) (fs : FS) (s : OState) (node kind : String)
    (sa : Option Nat) (h1 : kind ≠ "lint") (h2 : kind ≠ "sim") (h3 : kind ≠ "tb_lint") :
    handleFailure cfg fs s node kind sa = finishFailed cfg s node := by
  unfold handleFailure
  rw [if_neg h1, if_neg h2, if_neg h3]

/- ----- claim C3: the no-progress guard ----- -/

/-- In the SUCCESS arm, a `debug` result whose snapshot hashes both match the
current file hashes takes the no-progress branch: the snapshot is consumed,
the attempt counter is bumped, and the node goes to `_finish_failed`. -/
theorem handleSuccess_debug_noprogress (cfg : Cfg) (fs : FS) (s : OState)
    (node : String) (sa : Option Nat) (m : DebugMeta)
    (hmeta : aGet s.pending_debug node = some m)
    (hr : m.rtl_sha = fsRtl fs node) (ht : m.tb_sha = fsTb fs node)
    (hp : node ∉ s.pending) :
    aGet (handleSuccess cfg fs s node "debug" sa).nodeStates node =
        some NodeState.FAILED ∧
      ∀ p ∈ addedPubs s (handleSuccess cfg fs s node "debug" sa), p.node ≠ node := by
  have hh : handleSuccess cfg fs s node "debug" sa =
      finishFailed cfg
        { s with pending_debug := aDel s.pending_debug node,
                 attempt_by_node := aSet s.attempt_by_node node (m.from_attempt + 1) }
        node := by
    unfold handleSuccess
    rw [if_neg (by decide), if_neg (by decide), if_neg (by decide), if_neg (by decide),
      if_neg (by decide), if_neg (by decide), if_neg (by decide), if_neg (by decide),
      if_pos rfl]
    simp only [hmeta]
    rw [hr, ht]
    rw [if_pos (by simp)]
  rw [hh]
  set s2 : OState :=
    { s with pending_debug := aDel s.pending_debug node,
             attempt_by_node := aSet s.attempt_by_node node (m.from_attempt + 1) } with hs2
  have hp2 : node ∉ s2.pending := hp
  refine ⟨finishFailed_self cfg s2 node hp2, ?_⟩
  obtain ⟨l, hl, hmem⟩ := finishFailed_published cfg s2 node hp2
  have hl' : (finishFailed cfg s2 node).published = s.published ++ l := hl
  rw [addedPubs_of_append s _ l hl']
  intro p hpmem
  have hps : p.node ∈ s.pending := (hmem p hpmem).1
  exact fun he => hp (he ▸ hps)

/-- Claim C3: a DEBUGGING result — of either status — processed while the
pre-debug snapshot matches the current RTL and TB hashes finalizes the node
FAILED in that same dispatch step, publishes no task for it, and raises
nothing. -/
theorem C3_no_progress_finalizes_failed (cfg : Cfg) (fs : FS) (s : OState)
    (r : ResultMsg) (node stage : String) (sa : Option Nat) (m : DebugMeta)
    (hfind : findTask s.tasks r.task_id = some (node, stage))
    (hparse : parse_stage_key stage = ("debug", sa))
    (hri : r.reflection_insights = none) (hrf : r.reflections = none)
    (hmeta : aGet s.pending_debug node = some m)
    (hr : m.rtl_sha = fsRtl fs node) (ht : m.tb_sha = fsTb fs node)
    (hp : node ∉ s.pending) :
    aGet (step cfg fs s r).nodeStates node = some NodeState.FAILED ∧
      (∀ p ∈ addedPubs s (step cfg fs s r), p.node ≠ node) ∧
      (processResult cfg fs s r).2 = none := by
  cases hst : r.status with
  | FAILURE =>
    have heq := processResult_failure_eq cfg fs s r node stage hfind hri hrf hst
    rw [hparse] at heq
    have hstep : step cfg fs s r =
        handleFailure cfg fs (recorded s node stage r) node "debug" sa := by
      unfold step
      rw [heq]
    have hhf := handleFailure_other cfg fs (recorded s node stage r) node "debug" sa
      (by decide) (by decide) (by decide)
    have hp' : node ∉ (recorded s node stage r).pending := by
      rw [recorded_pending]
      exact hp
    refine ⟨?_, ?_, by rw [heq]⟩
    · rw [hstep, hhf]
      exact finishFailed_self cfg _ node hp'
    · rw [hstep, hhf]
      obtain ⟨l, hl, hmem⟩ := finishFailed_published cfg (recorded s node stage r) node hp'
      rw [recorded_published] at hl
      rw [addedPubs_of_append s _ l hl]
      intro p hpmem
      have hps := (hmem p hpmem).1
      rw [recorded_pending] at hps
      exact fun he => hp (he ▸ hps)
  | SUCCESS =>
    have heq := processResult_success_eq cfg fs s r node stage hfind hri hrf hst
    rw [hparse] at heq
    have hstep : step cfg fs s r =
        handleSuccess cfg fs (recorded s node stage r) node "debug" sa := by
      unfold step
      rw [heq]
    have hmeta' : aGet (recorded s node stage r).pending_debug node = some m := by
      rw [recorded_pending_debug]
      exact hmeta
    have hp' : node ∉ (recorded s node stage r).pending := by
      rw [recorded_pending]
      exact hp
    obtain ⟨h1, h2⟩ := handleSuccess_debug_noprogress cfg fs (recorded s node stage r)
      node sa m hmeta' hr ht hp'
    refine ⟨by rw [hstep]; exact h1, ?_, by rw [heq]⟩
    rw [hstep]
    intro p hpmem
    apply h2 p
    have : addedPubs s (handleSuccess cfg fs (recorded s node stage r) node "debug" sa) =
        addedPubs (recorded s node stage r)
          (handleSuccess cfg fs (recorded s node stage r) node "debug" sa) := by
      unfold addedPubs
      rw [recorded_published]
    rw [← this]
    exact hpmem

/-- Claim C3 witness: the concrete lint-fail / debug-success-with-no-change
trace — node `A` is FAILED by the no-progress guard with no fourth task
published and no exception. -/
theorem C3_no_progress_finalizes_failed_witness :
    aGet (step exCfgA exFs0
        ((runLoop exCfgA (initState exCfgA)
          [(exFs0, mkRes 0 TaskStatus.SUCCESS), (exFs0, mkRes 1 TaskStatus.FAILURE)]).1)
        (mkRes 2 TaskStatus.SUCCESS)).nodeStates "A" = some NodeState.FAILED ∧
      (∀ p ∈ addedPubs
          ((runLoop exCfgA (initState exCfgA)
            [(exFs0, mkRes 0 TaskStatus.SUCCESS), (exFs0, mkRes 1 TaskStatus.FAILURE)]).1)
          (step exCfgA exFs0
            ((runLoop exCfgA (initState exCfgA)
              [(exFs0, mkRes 0 TaskStatus.SUCCESS), (exFs0, mkRes 1 TaskStatus.FAILURE)]).1)
            (mkRes 2 TaskStatus.SUCCESS)), p.node ≠ "A") ∧
      (processResult exCfgA exFs0
        ((runLoop exCfgA (initState exCfgA)
          [(exFs0, mkRes 0 TaskStatus.SUCCESS), (exFs0, mkRes 1 TaskStatus.FAILURE)]).1)
        (mkRes 2 TaskStatus.SUCCESS)).2 = none :=
  C3_no_progress_finalizes_failed exCfgA exFs0 _ (mkRes 2 TaskStatus.SUCCESS) "A"
    "debug_attempt1" (some 1)
    { rtl_sha := "r0", tb_sha := "t0", from_attempt := 1, reason := "rtl_lint" }
    (by decide) (by decide) rfl rfl (by decide) (by decide) (by decide) (by decide)

/- ----- claim C8: FAILURE debug results ----- -/

/-- Claim C8, counterexample: node `A` fails LINTING (a DEBUG task is issued
with snapshot hashes `("r0","t0")`); the debug worker rewrites the RTL (the
file system now reads `("r1","t0")`, a non-empty patch) but reports status
FAILURE.  The orchestrator finalizes `A` FAILED through the generic failure
arm without consulting the hash snapshot — no LINTING task at attempt 2 is
published, and the stale `pending_debug` entry is never consumed — whereas
the claim requires the round to be treated as complete and decided by hash
comparison. -/
theorem C8_counterexample :
    let sfin := (runLoop exCfgA (initState exCfgA)
      [(exFs0, mkRes 0 TaskStatus.SUCCESS), (exFs0, mkRes 1 TaskStatus.FAILURE),
       (exFsRtl, mkRes 2 TaskStatus.FAILURE)]).1
    aGet sfin.nodeStates "A" = some NodeState.FAILED ∧
      sfin.published.length = 3 ∧
      (sfin.published.map (fun p => p.ttype)).getLast? = some TaskKind.DEBUG ∧
      aGet sfin.pending_debug "A" =
        some { rtl_sha := "r0", tb_sha := "t0", from_attempt := 1, reason := "rtl_lint" } ∧
      fsRtl exFsRtl "A" ≠ "r0" := by
  decide

/-- Claim C8 (amended): only a SUCCESS DEBUGGING result triggers the
snapshot comparison; a DEBUGGING result with status FAILURE finalizes the
node FAILED through the generic failure arm — no task is published for the
node in that dispatch and the `pending_debug` snapshot is left unconsumed,
whatever the current file hashes are. -/
theorem C8_failure_debug_finalizes (cfg : Cfg) (fs : FS) (s : OState)
    (r : ResultMsg) (node stage : String) (sa : Option Nat)
    (hfind : findTask s.tasks r.task_id = some (node, stage))
    (hparse : parse_stage_key stage = ("debug", sa))
    (hst : r.status = TaskStatus.FAILURE)
    (hri : r.reflection_insights = none) (hrf : r.reflections = none)
    (hp : node ∉ s.pending) :
    aGet (step cfg fs s r).nodeStates node = some NodeState.FAILED ∧
      (∀ p ∈ addedPubs s (step cfg fs s r), p.node ≠ node) ∧
      (step cfg fs s r).pending_debug = s.pending_debug := by
  have heq := processResult_failure_eq cfg fs s r node stage hfind hri hrf hst
  rw [hparse] at heq
  have hstep : step cfg fs s r =
      handleFailure cfg fs (recorded s node stage r) node "debug" sa := by
    unfold step
    rw [heq]
  have hhf : handleFailure cfg fs (recorded s node stage r) node "debug" sa =
      finishFailed cfg (recorded s node stage r) node := by
    unfold handleFailure
    rw [if_neg (by decide), if_neg (by decide), if_neg (by decide)]
  rw [hstep, hhf]
  have hp' : node ∉ (recorded s node stage r).pending := by
    rw [recorded_pending]
    exact hp
  refine ⟨finishFailed_self cfg _ node hp', ?_, ?_⟩
  · obtain ⟨l, hl, hmem⟩ := finishFailed_published cfg (recorded s node stage r) node hp'
    rw [recorded_published] at hl
    rw [addedPubs_of_append s _ l hl]
    intro p hpmem
    have := (hmem p hpmem).1
    rw [recorded_pending] at this
    exact fun he => hp (he ▸ this)
  · rw [finishFailed_pending_debug, recorded_pending_debug]

/-- Claim C8 witness: instantiating the amended theorem on the concrete
counterexample trace prefix. -/
theorem C8_failure_debug_finalizes_witness :
    aGet (step exCfgA exFsRtl
        ((runLoop exCfgA (initState exCfgA)
          [(exFs0, mkRes 0 TaskStatus.SUCCESS), (exFs0, mkRes 1 TaskStatus.FAILURE)]).1)
        (mkRes 2 TaskStatus.FAILURE)).nodeStates "A" = some NodeState.FAILED ∧
      (∀ p ∈ addedPubs
          ((runLoop exCfgA (initState exCfgA)
            [(exFs0, mkRes 0 TaskStatus.SUCCESS), (exFs0, mkRes 1 TaskStatus.FAILURE)]).1)
          (step exCfgA exFsRtl
            ((runLoop exCfgA (initState exCfgA)
              [(exFs0, mkRes 0 TaskStatus.SUCCESS), (exFs0, mkRes 1 TaskStatus.FAILURE)]).1)
            (mkRes 2 TaskStatus.FAILURE)), p.node ≠ "A") ∧
      (step exCfgA exFsRtl
        ((runLoop exCfgA (initState exCfgA)
          [(exFs0, mkRes 0 TaskStatus.SUCCESS), (exFs0, mkRes 1 TaskStatus.FAILURE)]).1)
        (mkRes 2 TaskStatus.FAILURE)).pending_debug =
      ((runLoop exCfgA (initState exCfgA)
        [(exFs0, mkRes 0 TaskStatus.SUCCESS), (exFs0, mkRes 1 TaskStatus.FAILURE)]).1).pending_debug :=
  C8_failure_debug_finalizes exCfgA exFsRtl _ (mkRes 2 TaskStatus.FAILURE) "A"
    "debug_attempt1" (some 1) (by decide) (by decide) rfl rfl rfl (by decide)

/- ----- claim C2: the retry budget ----- -/

theorem advPub_published (s : OState) (node : String) (st : NodeState)
    (ent : EntityType) (tt : TaskKind) (att : Option Nat) (dr : Option String)
    (key : String) :
    (advPub s node st ent tt att dr key).published = s.published ++
      [{ task_id := s.nextTaskId, node := node, entity := ent, ttype := tt,
         attempt := att, debug_reason := dr }] := rfl

theorem advPub_debug_attempts (s : OState) (node : String) (st : NodeState)
    (ent : EntityType) (tt : TaskKind) (att : Option Nat) (dr : Option String)
    (key : String) :
    (advPub s node st ent tt att dr key).debug_attempts_by_node =
      s.debug_attempts_by_node := rfl

theorem resetDebugAttempts_getDebug (s : OState) (n rs m r : String) :
    getDebugAttempts (resetDebugAttempts s n rs) m r =
      if m = n ∧ r = rs then 0 else getDebugAttempts s m r := by
  have hda : (resetDebugAttempts s n rs).debug_attempts_by_node =
      aSet s.debug_attempts_by_node n
        (aSet (aGetD s.debug_attempts_by_node n []) rs 0) := rfl
  simp only [getDebugAttempts, hda]
  by_cases hm : m = n
  · subst hm
    rw [aGetD_aSet_self]
    by_cases hr : r = rs
    · subst hr
      rw [aGetD_aSet_self]
      simp
    · rw [aGetD_aSet_ne _ _ _ _ _ hr]
      simp [hr, getDebugAttempts]
  · rw [aGetD_aSet_ne _ _ _ _ _ hm]
    simp [hm, getDebugAttempts]

/-- `_finish_failed` publishes only IMPLEMENTATION tasks (of newly ready
nodes). -/
theorem finishFailed_published_types (cfg : Cfg) (s : OState) (node : String) :
    ∃ l, (finishFailed cfg s node).published = s.published ++ l ∧
      ∀ p ∈ l, p.ttype = TaskKind.IMPLEMENTATION := by
  rw [finishFailed_eq]
  set s2 := (let s1 := applyAdvance s node NodeState.FAILED
    { s1 with activeN := sDel s1.activeN node, doneN := sAdd s1.doneN node }) with hs2
  set s3 := failDependents cfg s2 node with hs3
  have hpub3 : s3.published = s.published := by
    rw [hs3, failDependents_eq_fold, foldl_failOne_published]
    rfl
  obtain ⟨l, hl, hmem⟩ := startReadyNodes_published cfg s3
  exact ⟨l, by rw [hl, hpub3], fun p hp => (hmem p hp).2⟩

/-- No DEBUG task is among the additions of a dispatch step. -/
def NoDebugPubs (s s' : OState) : Prop :=
  ∃ l, s'.published = s.published ++ l ∧ ∀ p ∈ l, p.ttype ≠ TaskKind.DEBUG

/-- Every DEBUG task added by a dispatch step carries a failure reason whose
ledger entry was strictly below the budget before the step and is exactly
one higher after it. -/
def DebugPubsBudgeted (cfg : Cfg) (s s' : OState) : Prop :=
  ∀ p ∈ addedPubs s s', p.ttype = TaskKind.DEBUG →
    ∃ rs, p.debug_reason = some rs ∧
      getDebugAttempts s p.node rs < cfg.maxDebugRetries ∧
      getDebugAttempts s' p.node rs = getDebugAttempts s p.node rs + 1

/-- The conjunction proved for every branch of the dispatch: the ledger
bound is preserved, and any DEBUG publish is budgeted. -/
def C2Step (cfg : Cfg) (s s' : OState) : Prop :=
  (DebugLe cfg s → DebugLe cfg s') ∧ DebugPubsBudgeted cfg s s'

theorem DebugPubsBudgeted_of_noDebug (cfg : Cfg) (s s' : OState)
    (h : NoDebugPubs s s') : DebugPubsBudgeted cfg s s' := by
  obtain ⟨l, hl, hn⟩ := h
  rw [DebugPubsBudgeted, addedPubs_of_append _ _ _ hl]
  intro p hp hd
  exact absurd hd (hn p hp)

theorem NoDebugPubs_id (s : OState) : NoDebugPubs s s :=
  ⟨[], by simp, by simp⟩

theorem NoDebugPubs_advPub (s : OState) (node : String) (st : NodeState)
    (ent : EntityType) (tt : TaskKind) (att : Option Nat) (dr : Option String)
    (key : String) (htt : tt ≠ TaskKind.DEBUG) :
    NoDebugPubs s (advPub s node st ent tt att dr key) := by
  refine ⟨_, advPub_published s node st ent tt att dr key, ?_⟩
  intro p hp
  rw [List.mem_singleton.mp hp]
  exact htt

theorem NoDebugPubs_finishFailed (cfg : Cfg) (s : OState) (node : String) :
    NoDebugPubs s (finishFailed cfg s node) := by
  obtain ⟨l, hl, hmem⟩ := finishFailed_published_types cfg s node
  exact ⟨l, hl, fun p hp => by rw [hmem p hp]; decide⟩

theorem NoDebugPubs_finishDone (cfg : Cfg) (s : OState) (node : String) :
    NoDebugPubs s (finishDone cfg s node) := by
  obtain ⟨l, hl, hmem⟩ := finishDone_published cfg s node
  exact ⟨l, hl, fun p hp => by rw [(hmem p hp).2]; decide⟩

/-- Transport `NoDebugPubs` across a published-preserving pre-transform. -/
theorem NoDebugPubs_pre (s s1 s' : OState) (hpub : s1.published = s.published)
    (h : NoDebugPubs s1 s') : NoDebugPubs s s' := by
  obtain ⟨l, hl, hn⟩ := h
  exact ⟨l, by rw [hl, hpub], hn⟩

theorem DebugLe_ext (cfg : Cfg) (s s' : OState)
    (h : s'.debug_attempts_by_node = s.debug_attempts_by_node)
    (hle : DebugLe cfg s) : DebugLe cfg s' := by
  intro n r
  rw [getDebugAttempts_ext s s' h]
  exact hle n r

theorem DebugLe_reset (cfg : Cfg) (s : OState) (n rs : String)
    (hle : DebugLe cfg s) : DebugLe cfg (resetDebugAttempts s n rs) := by
  intro m r
  rw [resetDebugAttempts_getDebug]
  split_ifs with h
  · exact Nat.zero_le _
  · exact hle m r

theorem C2Step_finishFailed (cfg : Cfg) (s : OState) (node : String) :
    C2Step cfg s (finishFailed cfg s node) :=
  ⟨fun h => finishFailed_getDebug_le cfg s node _ h,
   DebugPubsBudgeted_of_noDebug cfg s _ (NoDebugPubs_finishFailed cfg s node)⟩

theorem C2Step_finishDone (cfg : Cfg) (s : OState) (node : String) :
    C2Step cfg s (finishDone cfg s node) :=
  ⟨fun h => finishDone_getDebug_le cfg s node _ h,
   DebugPubsBudgeted_of_noDebug cfg s _ (NoDebugPubs_finishDone cfg s node)⟩

theorem C2Step_advPub (cfg : Cfg) (s : OState) (node : String) (st : NodeState)
    (ent : EntityType) (tt : TaskKind) (att : Option Nat) (dr : Option String)
    (key : String) (htt : tt ≠ TaskKind.DEBUG) :
    C2Step cfg s (advPub s node st ent tt att dr key) :=
  ⟨DebugLe_ext cfg s _ (advPub_debug_attempts s node st ent tt att dr key),
   DebugPubsBudgeted_of_noDebug cfg s _ (NoDebugPubs_advPub s node st ent tt att dr key htt)⟩

theorem C2Step_startDebug (cfg : Cfg) (fs : FS) (s : OState) (node reason : String)
    (attempt : Nat) (hg : getDebugAttempts s node reason < cfg.maxDebugRetries) :
    C2Step cfg s (startDebug cfg fs s node reason attempt) := by
  constructor
  · intro hle m r
    rw [startDebug_getDebug]
    split_ifs with h
    · omega
    · exact hle m r
  · intro p hp hd
    rw [addedPubs_of_append s _ _ (startDebug_published cfg fs s node reason attempt)] at hp
    rw [List.mem_singleton.mp hp]
    refine ⟨reason, rfl, hg, ?_⟩
    rw [startDebug_getDebug]
    simp

theorem handleFailure_C2 (cfg : Cfg) (fs : FS) (s : OState) (node kind : String)
    (sa : Option Nat) : C2Step cfg s (handleFailure cfg fs s node kind sa) := by
  unfold handleFailure
  by_cases h1 : kind = "lint"
  · rw [if_pos h1]
    by_cases hg : getDebugAttempts s node "rtl_lint" ≥ cfg.maxDebugRetries
    · rw [if_pos hg]
      exact C2Step_finishFailed cfg s node
    · rw [if_neg hg]
      exact C2Step_startDebug cfg fs s node "rtl_lint" _ (Nat.lt_of_not_le hg)
  · rw [if_neg h1]
    by_cases h2 : kind = "sim"
    · rw [if_pos h2]
      cases sa with
      | none => exact C2Step_finishFailed cfg s node
      | some a => exact C2Step_advPub cfg s node _ _ _ _ _ _ (by decide)
    · rw [if_neg h2]
      by_cases h3 : kind = "tb_lint"
      · rw [if_pos h3]
        by_cases hg : getDebugAttempts s node "tb_lint" ≥ cfg.maxDebugRetries
        · rw [if_pos hg]
          exact C2Step_finishFailed cfg s node
        · rw [if_neg hg]
          exact C2Step_startDebug cfg fs s node "tb_lint" _ (Nat.lt_of_not_le hg)
      · rw [if_neg h3]
        exact C2Step_finishFailed cfg s node

theorem handleSuccess_C2 (cfg : Cfg) (fs : FS) (s : OState) (node kind : String)
    (sa : Option Nat) : C2Step cfg s (handleSuccess cfg fs s node kind sa) := by
  unfold handleSuccess
  by_cases h1 : kind = "impl"
  · rw [if_pos h1]
    exact C2Step_advPub cfg s node _ _ _ _ _ _ (by decide)
  · rw [if_neg h1]
    by_cases h2 : kind = "lint"
    · rw [if_pos h2]
      have hres : (resetDebugAttempts s node "rtl_lint").published = s.published := rfl
      have hle1 : DebugLe cfg s → DebugLe cfg (resetDebugAttempts s node "rtl_lint") :=
        DebugLe_reset cfg s node "rtl_lint"
      by_cases hsc : aGetD cfg.scopes node "full" ≠ "full"
      · rw [if_pos hsc]
        refine ⟨fun h => finishDone_getDebug_le cfg _ node _ (hle1 h), ?_⟩
        exact DebugPubsBudgeted_of_noDebug cfg s _
          (NoDebugPubs_pre s _ _ hres (NoDebugPubs_finishDone cfg _ node))
      · rw [if_neg hsc]
        by_cases htb : ¬ aGetD (resetDebugAttempts s node "rtl_lint").tb_generated_by_node node false
        · rw [if_pos htb]
          refine ⟨fun h => DebugLe_ext cfg _ _ rfl (hle1 h), ?_⟩
          exact DebugPubsBudgeted_of_noDebug cfg s _
            (NoDebugPubs_pre s _ _ hres (NoDebugPubs_advPub _ node _ _ _ _ _ _ (by decide)))
        · rw [if_neg htb]
          by_cases hnk : aGetD (resetDebugAttempts s node "rtl_lint").post_lint_next_kind
              node "sim" = "tb_lint"
          · rw [if_pos hnk]
            refine ⟨fun h => DebugLe_ext cfg _ _ rfl (hle1 h), ?_⟩
            exact DebugPubsBudgeted_of_noDebug cfg s _
              (NoDebugPubs_pre s _ _ rfl (NoDebugPubs_advPub _ node _ _ _ _ _ _ (by decide)))
          · rw [if_neg hnk]
            refine ⟨fun h => DebugLe_ext cfg _ _ rfl (hle1 h), ?_⟩
            exact DebugPubsBudgeted_of_noDebug cfg s _
              (NoDebugPubs_pre s _ _ rfl (NoDebugPubs_advPub _ node _ _ _ _ _ _ (by decide)))
    · rw [if_neg h2]
      by_cases h3 : kind = "tb"
      · rw [if_pos h3]
        refine ⟨fun h => DebugLe_ext cfg _ _ rfl h, ?_⟩
        exact DebugPubsBudgeted_of_noDebug cfg s _
          (NoDebugPubs_pre s _ _ rfl (NoDebugPubs_advPub _ node _ _ _ _ _ _ (by decide)))
      · rw [if_neg h3]
        by_cases h4 : kind = "tb_lint"
        · rw [if_pos h4]
          refine ⟨fun h => DebugLe_ext cfg _ _ rfl (DebugLe_reset cfg s node "tb_lint" h), ?_⟩
          exact DebugPubsBudgeted_of_noDebug cfg s _
            (NoDebugPubs_pre s _ _ rfl (NoDebugPubs_advPub _ node _ _ _ _ _ _ (by decide)))
        · rw [if_neg h4]
          by_cases h5 : kind = "sim"
          · rw [if_pos h5]
            refine ⟨fun h => DebugLe_ext cfg _ _ rfl (DebugLe_reset cfg s node "sim" h), ?_⟩
            exact DebugPubsBudgeted_of_noDebug cfg s _
              (NoDebugPubs_pre s _ _ rfl (NoDebugPubs_advPub _ node _ _ _ _ _ _ (by decide)))
          · rw [if_neg h5]
            by_cases h6 : kind = "acceptance"
            · rw [if_pos h6]
              exact C2Step_finishDone cfg s node
            · rw [if_neg h6]
              by_cases h7 : kind = "distill"
              · rw [if_pos h7]
                cases sa with
                | none => exact C2Step_finishFailed cfg s node
                | some a => exact C2Step_advPub cfg s node _ _ _ _ _ _ (by decide)
              · rw [if_neg h7]
                by_cases h8 : kind = "reflect"
                · rw [if_pos h8]
                  cases sa with
                  | none => exact C2Step_finishFailed cfg s node
                  | some a =>
                    dsimp only
                    by_cases hg : getDebugAttempts s node "sim" ≥ cfg.maxDebugRetries
                    · rw [if_pos hg]
                      exact C2Step_finishFailed cfg s node
                    · rw [if_neg hg]
                      exact C2Step_startDebug cfg fs s node "sim" a (Nat.lt_of_not_le hg)
                · rw [if_neg h8]
                  by_cases h9 : kind = "debug"
                  · rw [if_pos h9]
                    cases hmeta : aGet s.pending_debug node with
                    | none => exact C2Step_finishFailed cfg s node
                    | some meta =>
                      dsimp only
                      set s2 : OState :=
                        { s with pending_debug := aDel s.pending_debug node,
                                 attempt_by_node := aSet s.attempt_by_node node
                                   (meta.from_attempt + 1) } with hs2
                      have hda2 : s2.debug_attempts_by_node = s.debug_attempts_by_node := rfl
                      have hpub2 : s2.published = s.published := rfl
                      by_cases hch : ¬ meta.rtl_sha ≠ fsRtl fs node ∧ ¬ meta.tb_sha ≠ fsTb fs node
                      · rw [if_pos hch]
                        refine ⟨fun h => finishFailed_getDebug_le cfg s2 node _
                          (DebugLe_ext cfg s s2 hda2 h), ?_⟩
                        exact DebugPubsBudgeted_of_noDebug cfg s _
                          (NoDebugPubs_pre s s2 _ hpub2 (NoDebugPubs_finishFailed cfg s2 node))
                      · rw [if_neg hch]
                        by_cases hrtl : meta.rtl_sha ≠ fsRtl fs node
                        · rw [if_pos hrtl]
                          refine ⟨fun h => DebugLe_ext cfg _ _ rfl h, ?_⟩
                          refine DebugPubsBudgeted_of_noDebug cfg s _
                            ⟨[{ task_id := s.nextTaskId, node := node,
                                entity := EntityType.LIGHT_DETERMINISTIC,
                                ttype := TaskKind.LINTER,
                                attempt := some (meta.from_attempt + 1),
                                debug_reason := none }], rfl, ?_⟩
                          intro p hp
                          rw [List.mem_singleton.mp hp]
                          show TaskKind.LINTER ≠ TaskKind.DEBUG
                          decide
                        · rw [if_neg hrtl]
                          refine ⟨fun h => DebugLe_ext cfg _ _ rfl h, ?_⟩
                          exact DebugPubsBudgeted_of_noDebug cfg s _
                            (NoDebugPubs_pre s s2 _ hpub2
                              (NoDebugPubs_advPub s2 node _ _ _ _ _ _ (by decide)))
                  · rw [if_neg h9]
                    exact ⟨fun h => h, DebugPubsBudgeted_of_noDebug cfg s _ (NoDebugPubs_id s)⟩

/-- The state produced by one dispatch is the input state (unmatched id),
the partially-recorded state (payload `AttributeError`), or a handler
applied to the fully recorded state. -/
theorem processResult_state_shape (cfg : Cfg) (fs : FS) (s : OState) (r : ResultMsg) :
    (processResult cfg fs s r).1 = s ∨
      (∃ node stage, (processResult cfg fs s r).1 =
        recordArtifactMem (recordLogMem s node stage r.log_output) node stage r.artifacts_path) ∨
      (∃ node stage, (processResult cfg fs s r).1 =
          handleSuccess cfg fs (recorded s node stage r) node
            (parse_stage_key stage).1 (parse_stage_key stage).2 ∨
        (processResult cfg fs s r).1 =
          handleFailure cfg fs (recorded s node stage r) node
            (parse_stage_key stage).1 (parse_stage_key stage).2) := by
  unfold processResult
  cases hfind : findTask s.tasks r.task_id with
  | none => exact Or.inl rfl
  | some ns =>
    obtain ⟨node, stage⟩ := ns
    by_cases hri : r.reflection_insights.isSome
    · refine Or.inr (Or.inl ⟨node, stage, ?_⟩)
      simp [hri]
    · by_cases hrf : pyTruthyStr r.reflections = true
      · refine Or.inr (Or.inl ⟨node, stage, ?_⟩)
        simp [hri, hrf]
      · cases hst : r.status with
        | SUCCESS =>
          refine Or.inr (Or.inr ⟨node, stage, Or.inl ?_⟩)
          simp only [Bool.not_eq_true] at hrf
          simp [hri, hrf, hst, recorded]
        | FAILURE =>
          refine Or.inr (Or.inr ⟨node, stage, Or.inr ?_⟩)
          simp only [Bool.not_eq_true] at hrf
          simp [hri, hrf, hst, recorded]

/-- Transport `C2Step` across a pre-transform that changes neither the
published list nor the retry ledger. -/
theorem C2Step_pre (cfg : Cfg) (s s1 s' : OState)
    (hpub : s1.published = s.published)
    (hdbg : s1.debug_attempts_by_node = s.debug_attempts_by_node)
    (h : C2Step cfg s1 s') : C2Step cfg s s' := by
  constructor
  · intro hle
    exact h.1 (DebugLe_ext cfg s s1 hdbg hle)
  · intro p hp hd
    have he : addedPubs s s' = addedPubs s1 s' := by
      unfold addedPubs
      rw [hpub]
    obtain ⟨rs, h1, h2, h3⟩ := h.2 p (he ▸ hp) hd
    rw [getDebugAttempts_ext s s1 hdbg] at h2 h3
    exact ⟨rs, h1, h2, h3⟩

/-- Claim C2: the per-(node, failure-reason) retry budget.  In every
dispatch: (1) the ledger bound `getDebugAttempts ≤ max_debug_retries` is
preserved; (2) every DEBUGGING task published carries a reason whose ledger
entry was strictly below the budget before the dispatch and is exactly one
higher afterwards — so the count of DEBUGGING tasks issued for a reason
since it was last cleared never exceeds `max_debug_retries`; and (3) a
consecutive failure of that reason arriving with the ledger already at the
budget (the (max+1)-th) finalizes the node FAILED and publishes nothing for
it, instead of issuing another debug task. -/
theorem C2_retry_budget (cfg : Cfg) (fs : FS) (s : OState) (r : ResultMsg) :
    (DebugLe cfg s → DebugLe cfg (step cfg fs s r)) ∧
      DebugPubsBudgeted cfg s (step cfg fs s r) ∧
      (∀ node stage sa reason,
        findTask s.tasks r.task_id = some (node, stage) →
        r.reflection_insights = none → r.reflections = none →
        node ∉ s.pending →
        ((parse_stage_key stage = ("lint", sa) ∧ r.status = TaskStatus.FAILURE ∧
            reason = "rtl_lint") ∨
         (parse_stage_key stage = ("tb_lint", sa) ∧ r.status = TaskStatus.FAILURE ∧
            reason = "tb_lint") ∨
         (parse_stage_key stage = ("reflect", sa) ∧ (∃ a, sa = some a) ∧
            r.status = TaskStatus.SUCCESS ∧ reason = "sim")) →
        cfg.maxDebugRetries ≤ getDebugAttempts s node reason →
        aGet (step cfg fs s r).nodeStates node = some NodeState.FAILED ∧
          ∀ p ∈ addedPubs s (step cfg fs s r), p.node ≠ node) := by
  have hshape := processResult_state_shape cfg fs s r
  have hcore : C2Step cfg s (step cfg fs s r) := by
    unfold step
    rcases hshape with h0 | ⟨node, stage, h1⟩ | ⟨node, stage, h2 | h2⟩
    · rw [h0]
      exact ⟨fun h => h, DebugPubsBudgeted_of_noDebug cfg s _ (NoDebugPubs_id s)⟩
    · rw [h1]
      refine C2Step_pre cfg s
        (recordArtifactMem (recordLogMem s node stage r.log_output) node stage r.artifacts_path)
        _ ?_ ?_ ?_
      · rw [recordArtifactMem_published, recordLogMem_published]
      · rw [recordArtifactMem_debug_attempts, recordLogMem_debug_attempts]
      · exact ⟨fun h => h, DebugPubsBudgeted_of_noDebug cfg _ _ (NoDebugPubs_id _)⟩
    · rw [h2]
      exact C2Step_pre cfg s _ _ (recorded_published s node stage r)
        (recorded_debug_attempts s node stage r)
        (handleSuccess_C2 cfg fs (recorded s node stage r) node _ _)
    · rw [h2]
      exact C2Step_pre cfg s _ _ (recorded_published s node stage r)
        (recorded_debug_attempts s node stage r)
        (handleFailure_C2 cfg fs (recorded s node stage r) node _ _)
  refine ⟨hcore.1, hcore.2, ?_⟩
  intro node stage sa reason hfind hri hrf hp htrig hmax
  have hexh : ∀ s3 : OState, s3 = recorded s node stage r →
      aGet (finishFailed cfg s3 node).nodeStates node = some NodeState.FAILED ∧
        ∀ p ∈ addedPubs s (finishFailed cfg s3 node), p.node ≠ node := by
    intro s3 hs3
    subst hs3
    have hp3 : node ∉ (recorded s node stage r).pending := by
      rw [recorded_pending]
      exact hp
    refine ⟨finishFailed_self cfg _ node hp3, ?_⟩
    obtain ⟨l, hl, hmem⟩ := finishFailed_published cfg (recorded s node stage r) node hp3
    rw [recorded_published] at hl
    rw [addedPubs_of_append s _ l hl]
    intro p hpmem
    have hps := (hmem p hpmem).1
    rw [recorded_pending] at hps
    exact fun he => hp (he ▸ hps)
  have hgr : cfg.maxDebugRetries ≤ getDebugAttempts (recorded s node stage r) node reason := by
    rw [getDebugAttempts_ext s _ (recorded_debug_attempts s node stage r)]
    exact hmax
  rcases htrig with ⟨hparse, hst, hreason⟩ | ⟨hparse, hst, hreason⟩ | ⟨hparse, ⟨a, hsa⟩, hst, hreason⟩
  · have heq := processResult_failure_eq cfg fs s r node stage hfind hri hrf hst
    rw [hparse] at heq
    have hstep : step cfg fs s r =
        handleFailure cfg fs (recorded s node stage r) node "lint" sa := by
      unfold step
      rw [heq]
    have hh : handleFailure cfg fs (recorded s node stage r) node "lint" sa =
        finishFailed cfg (recorded s node stage r) node := by
      unfold handleFailure
      rw [if_pos rfl, if_pos (by rw [← hreason]; exact hgr)]
    rw [hstep, hh]
    exact hexh _ rfl
  · have heq := processResult_failure_eq cfg fs s r node stage hfind hri hrf hst
    rw [hparse] at heq
    have hstep : step cfg fs s r =
        handleFailure cfg fs (recorded s node stage r) node "tb_lint" sa := by
      unfold step
      rw [heq]
    have hh : handleFailure cfg fs (recorded s node stage r) node "tb_lint" sa =
        finishFailed cfg (recorded s node stage r) node := by
      unfold handleFailure
      rw [if_neg (by decide), if_neg (by decide), if_pos rfl,
        if_pos (by rw [← hreason]; exact hgr)]
    rw [hstep, hh]
    exact hexh _ rfl
  · have heq := processResult_success_eq cfg fs s r node stage hfind hri hrf hst
    rw [hparse, hsa] at heq
    have hstep : step cfg fs s r =
        handleSuccess cfg fs (recorded s node stage r) node "reflect" (some a) := by
      unfold step
      rw [heq]
    have hh : handleSuccess cfg fs (recorded s node stage r) node "reflect" (some a) =
        finishFailed cfg (recorded s node stage r) node := by
      unfold handleSuccess
      rw [if_neg (by decide), if_neg (by decide), if_neg (by decide), if_neg (by decide),
        if_neg (by decide), if_neg (by decide), if_neg (by decide), if_pos rfl]
      dsimp only
      rw [if_pos (by rw [← hreason]; exact hgr)]
    rw [hstep, hh]
    exact hexh _ rfl

/-- Claim C2 witness: the third consecutive `rtl_lint` failure (ledger at
the default budget 2) finalizes `A` FAILED and publishes nothing for it. -/
theorem C2_retry_budget_witness :
    aGet (step exCfgA exFs0 c2w (mkRes 5 TaskStatus.FAILURE)).nodeStates "A" =
        some NodeState.FAILED ∧
      ∀ p ∈ addedPubs c2w (step exCfgA exFs0 c2w (mkRes 5 TaskStatus.FAILURE)),
        p.node ≠ "A" :=
  (C2_retry_budget exCfgA exFs0 c2w (mkRes 5 TaskStatus.FAILURE)).2.2
    "A" "lint_attempt3" (some 3) "rtl_lint" (by decide) rfl rfl (by decide)
    (Or.inl ⟨by decide, rfl, rfl⟩) (by decide)

/- ----- claim C10: stage-key round trip ----- -/

theorem prefix_split {α : Type} (p a b : List α) (h : p <+: a ++ b) :
    p <+: a ∨ ∃ t, p = a ++ t ∧ t <+: b := by
  induction a generalizing p with
  | nil => exact Or.inr ⟨p, rfl, h⟩
  | cons x a' ih =>
    cases p with
    | nil => exact Or.inl ⟨x :: a', rfl⟩
    | cons y p' =>
      rw [List.cons_append, List.cons_prefix_cons] at h
      obtain ⟨rfl, h'⟩ := h
      rcases ih p' h' with hl | ⟨t, rfl, ht⟩
      · exact Or.inl (List.cons_prefix_cons.mpr ⟨rfl, hl⟩)
      · exact Or.inr ⟨t, by simp, ht⟩

theorem prefix_head_eq {α : Type} {t u : List α} (h : t <+: u) (hne : t ≠ []) :
    t.head? = u.head? := by
  cases t with
  | nil => exact absurd rfl hne
  | cons x ts =>
    obtain ⟨k, hk⟩ := h
    cases u with
    | nil => cases hk
    | cons y us =>
      have hx : x = y := by
        have := congrArg List.head? hk
        simpa using this
      simp [hx]

theorem containsSub_cons {c : Char} {k' pat : List Char}
    (hk : containsSub (c :: k') pat = false) :
    containsSub k' pat = false ∧ pat.isPrefixOf (c :: k') = false := by
  by_cases hpre : pat.isPrefixOf (c :: k') = true
  · exfalso
    unfold containsSub subSplit at hk
    rw [if_pos hpre] at hk
    simp at hk
  · have hpre' : pat.isPrefixOf (c :: k') = false := by
      cases hb : pat.isPrefixOf (c :: k')
      · rfl
      · exact absurd hb hpre
    constructor
    · unfold containsSub subSplit at hk
      rw [if_neg (by simp [hpre'])] at hk
      simpa [containsSub] using hk
    · exact hpre'

/-- First-occurrence partition of `kind ++ "_attempt" ++ ds` when `kind` does
not contain `"_attempt"`: the seam occurrence is the first one (no
occurrence straddles the boundary because every proper suffix of
`"_attempt"` starts with a letter, while the seam starts with an
underscore). -/
theorem subSplit_append (kind ds : List Char)
    (hk : containsSub kind attemptPat = false) :
    subSplit (kind ++ attemptPat ++ ds) attemptPat = some (kind, ds) := by
  induction kind with
  | nil =>
    show subSplit (attemptPat ++ ds) attemptPat = some ([], ds)
    unfold subSplit
    rw [if_pos (by simp), List.drop_left]
  | cons c k' ih =>
    obtain ⟨hk', hpre⟩ := containsSub_cons hk
    have hcond : attemptPat.isPrefixOf ((c :: k') ++ (attemptPat ++ ds)) = false := by
      by_contra hcon
      have hcon' : attemptPat.isPrefixOf ((c :: k') ++ (attemptPat ++ ds)) = true := by
        cases hb : attemptPat.isPrefixOf ((c :: k') ++ (attemptPat ++ ds))
        · exact absurd hb hcon
        · rfl
      have hpfx : attemptPat <+: (c :: k') ++ (attemptPat ++ ds) := by
        simpa using hcon'
      rcases prefix_split attemptPat (c :: k') (attemptPat ++ ds) hpfx with hca | ⟨t, hts, htp⟩
      · have : attemptPat.isPrefixOf (c :: k') = true := by simpa using hca
        rw [this] at hpre
        cases hpre
      · cases t with
        | nil =>
          have : attemptPat.isPrefixOf (c :: k') = true := by
            simp only [List.append_nil] at hts
            rw [← hts]
            simp
          rw [this] at hpre
          cases hpre
        | cons th tt =>
          have hth : th = '_' := by
            have h1 : (th :: tt).head? = (attemptPat ++ ds).head? :=
              prefix_head_eq htp (by simp)
            have h2 : (attemptPat ++ ds).head? = some '_' := rfl
            rw [h2] at h1
            simpa using h1
          have hts2 : ('_' :: ("attempt".data : List Char)) = c :: (k' ++ th :: tt) := by
            have h3 : attemptPat = c :: (k' ++ th :: tt) := by simpa using hts
            have h4 : attemptPat = ('_' :: ("attempt".data : List Char)) := rfl
            rw [← h4, h3]
          have hpair : ("attempt".data : List Char) = k' ++ th :: tt := by
            injection hts2
          have hthmem : th ∈ ("attempt".data : List Char) := by
            rw [hpair]
            simp
          rw [hth] at hthmem
          revert hthmem
          decide
    have hshape : (c :: k') ++ attemptPat ++ ds = c :: (k' ++ attemptPat ++ ds) := by
      simp
    have hcond2 : attemptPat.isPrefixOf (c :: (k' ++ attemptPat ++ ds)) = false := by
      rw [← hshape]
      simpa using hcond
    have hstep : subSplit (c :: (k' ++ attemptPat ++ ds)) attemptPat =
        (subSplit (k' ++ attemptPat ++ ds) attemptPat).map
          (fun q => (c :: q.1, q.2)) := by
      conv_lhs => rw [subSplit]
      rw [if_neg ?hneg]
      case hneg =>
        intro hcon
        have hb : attemptPat.isPrefixOf (c :: (k' ++ attemptPat ++ ds)) = true := by
          simpa [List.append_assoc] using hcon
        rw [hb] at hcond2
        cases hcond2
    rw [hshape, hstep, ih hk']
    rfl

/- decimal digits of a natural number -/

theorem digitCh_toNat (d : Nat) (h : d < 10) : (digitCh d).toNat = 48 + d := by
  interval_cases d <;> decide

theorem isDigitCh_digitCh (d : Nat) (h : d < 10) : isDigitCh (digitCh d) = true := by
  interval_cases d <;> decide

theorem charsToNat_append_digit (l : List Char) (c : Char) :
    charsToNat (l ++ [c]) = 10 * charsToNat l + (c.toNat - 48) := by
  simp [charsToNat, List.foldl_append]

theorem natToCharsAux_spec (fuel : Nat) : ∀ n : Nat, n < fuel →
    (∀ c ∈ natToCharsAux fuel n, isDigitCh c = true) ∧
      charsToNat (natToCharsAux fuel n) = n ∧
      (n ≠ 0 → natToCharsAux fuel n ≠ []) := by
  induction fuel with
  | zero => intro n hn; omega
  | succ fuel ih =>
    intro n hn
    by_cases h0 : n = 0
    · subst h0
      refine ⟨?_, ?_, ?_⟩ <;> simp [natToCharsAux, charsToNat]
    · have hdiv : n / 10 < fuel := by
        have h1 : n / 10 < n := Nat.div_lt_self (Nat.pos_of_ne_zero h0) (by norm_num)
        omega
      obtain ⟨ihd, ihv, _⟩ := ih (n / 10) hdiv
      have hsh : natToCharsAux (fuel + 1) n =
          natToCharsAux fuel (n / 10) ++ [digitCh (n % 10)] := by
        conv_lhs => rw [natToCharsAux]
        rw [if_neg h0]
      have hmod : n % 10 < 10 := Nat.mod_lt _ (by norm_num)
      refine ⟨?_, ?_, ?_⟩
      · intro c hc
        rw [hsh] at hc
        rcases List.mem_append.mp hc with hc1 | hc2
        · exact ihd c hc1
        · rw [List.mem_singleton.mp hc2]
          exact isDigitCh_digitCh _ hmod
      · rw [hsh, charsToNat_append_digit, ihv, digitCh_toNat _ hmod]
        omega
      · intro _
        rw [hsh]
        simp

theorem pyIsDigit_natToChars (n : Nat) : pyIsDigit (natToChars n) = true := by
  unfold natToChars
  by_cases h0 : n = 0
  · rw [if_pos h0]
    decide
  · rw [if_neg h0]
    obtain ⟨hd, _, hne⟩ := natToCharsAux_spec (n + 1) n (Nat.lt_succ_self n)
    unfold pyIsDigit
    rw [Bool.and_eq_true, List.all_eq_true]
    constructor
    · simpa [List.isEmpty_iff] using hne h0
    · exact hd

theorem charsToNat_natToChars (n : Nat) : charsToNat (natToChars n) = n := by
  unfold natToChars
  by_cases h0 : n = 0
  · rw [if_pos h0, h0]
    decide
  · rw [if_neg h0]
    exact (natToCharsAux_spec (n + 1) n (Nat.lt_succ_self n)).2.1

theorem string_data_append (a b : String) : (a ++ b).data = a.data ++ b.data := rfl

/-- Claim C10: stage-key encoding and parsing round-trip.  For any stage
kind not containing the substring `"_attempt"`: a keyed attempt survives
the round trip (`_parse_stage_key (_stage_key kind a) = (kind, a)`, both
with and without an attempt number), and a `"_attempt"` suffix that is not
all digits parses back as attempt `None`. -/
theorem C10_stage_key_roundtrip (kind : String) (n : Nat) (suffix : List Char)
    (hk : containsSub kind.data attemptPat = false)
    (hs : pyIsDigit suffix = false) :
    parse_stage_key (stage_key kind (some n)) = (kind, some n) ∧
      parse_stage_key (stage_key kind none) = (kind, none) ∧
      parse_stage_key (String.mk (kind.data ++ attemptPat ++ suffix)) = (kind, none) := by
  have hketa : String.mk kind.data = kind := by
    cases kind
    rfl
  refine ⟨?_, ?_, ?_⟩
  · have hdata : (stage_key kind (some n)).data =
        kind.data ++ attemptPat ++ natToChars n := by
      show (kind ++ "_attempt" ++ String.mk (natToChars n)).data = _
      rw [string_data_append, string_data_append]
      rfl
    unfold parse_stage_key
    rw [hdata]
    simp only [subSplit_append _ _ hk]
    rw [if_pos (pyIsDigit_natToChars n), charsToNat_natToChars, hketa]
  · unfold parse_stage_key
    have hnone : subSplit (stage_key kind none).data attemptPat = none := by
      have h1 : (stage_key kind none).data = kind.data := rfl
      rw [h1]
      have h2 : (subSplit kind.data attemptPat).isSome = false := hk
      exact Option.not_isSome_iff_eq_none.mp (by simp [h2])
    simp only [hnone]
    rfl
  · unfold parse_stage_key
    rw [show (String.mk (kind.data ++ attemptPat ++ suffix)).data =
        kind.data ++ attemptPat ++ suffix from rfl]
    simp only [subSplit_append _ _ hk]
    rw [if_neg (by simp [hs]), hketa]

/-- Claim C10 witness: `("lint", 3)` round-trips and `"lint_attemptx"`
parses as attempt `None`. -/
theorem C10_stage_key_roundtrip_witness :
    parse_stage_key (stage_key "lint" (some 3)) = ("lint", some 3) ∧
      parse_stage_key (stage_key "lint" none) = ("lint", none) ∧
      parse_stage_key (String.mk ("lint".data ++ attemptPat ++ ['x'])) = ("lint", none) :=
  C10_stage_key_roundtrip "lint" 3 ['x'] (by decide) (by decide)

/- ----- claim C7: verification-scope skip ----- -/

theorem resetDebugAttempts_pending (s : OState) (n rs : String) :
    (resetDebugAttempts s n rs).pending = s.pending := rfl

theorem resetDebugAttempts_published (s : OState) (n rs : String) :
    (resetDebugAttempts s n rs).published = s.published := rfl

/-- Claim C7, counterexample: a node with `verification_scope = "sub"` that
fails LINTING enters the debug path; a debug round that changes only the TB
hash then re-enters TB_LINTING — the scope check of the lint-success branch
is bypassed, so a TESTBENCH_LINTER task is published for a non-full node,
contradicting "no TB_LINTING task is ever published for that node". -/
theorem C7_counterexample :
    let sfin := (runLoop exCfgSub (initState exCfgSub)
      [(exFs0, mkRes 0 TaskStatus.SUCCESS), (exFs0, mkRes 1 TaskStatus.FAILURE),
       (exFsTb, mkRes 2 TaskStatus.SUCCESS)]).1
    aGetD exCfgSub.scopes "A" "full" = "sub" ∧
      (sfin.published.filter
        (fun p => p.ttype == TaskKind.TESTBENCH_LINTER && p.node == "A")).length = 1 ∧
      aGet sfin.nodeStates "A" = some NodeState.TB_LINTING := by
  decide

/-- Claim C7 (amended): a successful LINTING result for a node whose
verification scope is not `"full"` finalizes it DONE within that dispatch
step, and every task published in that step is an IMPLEMENTATION task of
some other, newly ready node — in particular no TESTBENCHING, TB_LINTING,
SIMULATING or ACCEPTING task for this node.  (The unqualified "never": a
TB_LINTING round can still be reached by such a node through the post-debug
re-entry, as the counterexample shows.) -/
theorem C7_scope_skip_finalizes_done (cfg : Cfg) (fs : FS) (s : OState)
    (r : ResultMsg) (node stage : String) (sa : Option Nat)
    (hfind : findTask s.tasks r.task_id = some (node, stage))
    (hparse : parse_stage_key stage = ("lint", sa))
    (hst : r.status = TaskStatus.SUCCESS)
    (hri : r.reflection_insights = none) (hrf : r.reflections = none)
    (hp : node ∉ s.pending)
    (hscope : aGetD cfg.scopes node "full" ≠ "full") :
    aGet (step cfg fs s r).nodeStates node = some NodeState.DONE ∧
      ∀ p ∈ addedPubs s (step cfg fs s r),
        p.node ≠ node ∧ p.ttype = TaskKind.IMPLEMENTATION := by
  have heq := processResult_success_eq cfg fs s r node stage hfind hri hrf hst
  rw [hparse] at heq
  have hstep : step cfg fs s r =
      handleSuccess cfg fs (recorded s node stage r) node "lint" sa := by
    unfold step
    rw [heq]
  have hh : handleSuccess cfg fs (recorded s node stage r) node "lint" sa =
      finishDone cfg (resetDebugAttempts (recorded s node stage r) node "rtl_lint") node := by
    unfold handleSuccess
    rw [if_neg (by decide), if_pos rfl, if_pos hscope]
  rw [hstep, hh]
  set s1 := resetDebugAttempts (recorded s node stage r) node "rtl_lint" with hs1
  have hp1 : node ∉ s1.pending := by
    rw [hs1, resetDebugAttempts_pending, recorded_pending]
    exact hp
  refine ⟨finishDone_self cfg s1 node hp1, ?_⟩
  obtain ⟨l, hl, hmem⟩ := finishDone_published cfg s1 node
  have hl' : (finishDone cfg s1 node).published = s.published ++ l := by
    rw [hl, hs1, resetDebugAttempts_published, recorded_published]
  rw [addedPubs_of_append s _ l hl']
  intro p hpmem
  have hps : p.node ∈ s.pending := by
    have := (hmem p hpmem).1
    rw [hs1, resetDebugAttempts_pending, recorded_pending] at this
    exact this
  exact ⟨fun he => hp (he ▸ hps), (hmem p hpmem).2⟩

/-- Claim C7 witness: the non-full node `A` passing LINTING at attempt 1 is
finalized DONE with nothing further published for it. -/
theorem C7_scope_skip_finalizes_done_witness :
    aGet (step exCfgSub exFs0
        ((runLoop exCfgSub (initState exCfgSub) [(exFs0, mkRes 0 TaskStatus.SUCCESS)]).1)
        (mkRes 1 TaskStatus.SUCCESS)).nodeStates "A" = some NodeState.DONE ∧
      ∀ p ∈ addedPubs
          ((runLoop exCfgSub (initState exCfgSub) [(exFs0, mkRes 0 TaskStatus.SUCCESS)]).1)
          (step exCfgSub exFs0
            ((runLoop exCfgSub (initState exCfgSub) [(exFs0, mkRes 0 TaskStatus.SUCCESS)]).1)
            (mkRes 1 TaskStatus.SUCCESS)),
        p.node ≠ "A" ∧ p.ttype = TaskKind.IMPLEMENTATION :=
  C7_scope_skip_finalizes_done exCfgSub exFs0 _ (mkRes 1 TaskStatus.SUCCESS) "A"
    "lint_attempt1" (some 1) (by decide) (by decide) rfl rfl rfl (by decide) (by decide)

/- ----- claim C9: sim failure, debug touching only the TB ----- -/

theorem c9_init : initState exCfgA = c9s0 := by decide

theorem c9_d1 : processResult exCfgA exFs0 c9s0 (mkRes 0 TaskStatus.SUCCESS) = (c9s1, none) := by decide

theorem c9_d2 : processResult exCfgA exFs0 c9s1 (mkRes 1 TaskStatus.SUCCESS) = (c9s2, none) := by decide

theorem c9_d3 : processResult exCfgA exFs0 c9s2 (mkRes 2 TaskStatus.SUCCESS) = (c9s3, none) := by decide

theorem c9_d4 : processResult exCfgA exFs0 c9s3 (mkRes 3 TaskStatus.SUCCESS) = (c9s4, none) := by decide

theorem c9_d5 : processResult exCfgA exFs0 c9s4 (mkRes 4 TaskStatus.FAILURE) = (c9s5, none) := by decide

theorem c9_d6 : processResult exCfgA exFs0 c9s5 (mkRes 5 TaskStatus.SUCCESS) = (c9s6, none) := by decide

theorem c9_d7 : processResult exCfgA exFs0 c9s6 (mkRes 6 TaskStatus.SUCCESS) = (c9s7, none) := by decide

theorem c9_d8 : processResult exCfgA exFsTb c9s7 (mkRes 7 TaskStatus.SUCCESS) = (c9s8, none) := by decide

/-- Claim C9: node `A` passes impl/lint/tb/tb-lint, fails SIMULATING at
attempt 1, DISTILLING and REFLECTING succeed, and the DEBUGGING round
changes only the testbench hash (`exFs0` vs `exFsTb`); the next (and only)
task published at attempt 2 is TB_LINTING — not LINTING and not
SIMULATING — and the node sits in TB_LINTING with its attempt counter
at 2. -/
theorem C9_tb_only_debug_reenters_tb_lint :
    (runLoop exCfgA (initState exCfgA)
      [(exFs0, mkRes 0 TaskStatus.SUCCESS), (exFs0, mkRes 1 TaskStatus.SUCCESS),
       (exFs0, mkRes 2 TaskStatus.SUCCESS), (exFs0, mkRes 3 TaskStatus.SUCCESS),
       (exFs0, mkRes 4 TaskStatus.FAILURE), (exFs0, mkRes 5 TaskStatus.SUCCESS),
       (exFs0, mkRes 6 TaskStatus.SUCCESS), (exFsTb, mkRes 7 TaskStatus.SUCCESS)]).1 = c9s8 ∧
      c9s8.published.map (fun p => p.ttype) =
        [TaskKind.IMPLEMENTATION, TaskKind.LINTER, TaskKind.TESTBENCH,
         TaskKind.TESTBENCH_LINTER, TaskKind.SIMULATOR, TaskKind.DISTILLATION,
         TaskKind.REFLECTION, TaskKind.DEBUG, TaskKind.TESTBENCH_LINTER] ∧
      c9s8.published.getLast? = some
        { task_id := 8, node := "A", entity := EntityType.LIGHT_DETERMINISTIC,
          ttype := TaskKind.TESTBENCH_LINTER, attempt := some 2, debug_reason := none } ∧
      aGet c9s8.nodeStates "A" = some NodeState.TB_LINTING ∧
      aGetD c9s8.attempt_by_node "A" 1 = 2 ∧
      (c9s8.published.filter (fun p => p.attempt == some 2)).map (fun p => p.ttype) =
        [TaskKind.TESTBENCH_LINTER] := by
  constructor
  · rw [c9_init]
    simp only [runLoop, c9_d1, c9_d2, c9_d3, c9_d4, c9_d5, c9_d6, c9_d7, c9_d8]
  · decide

end Orch
